import Mathlib

/-!
Verification development for the notionapi repository: a shallow embedding of
the inline rich-text parser (src/unnamed/part_000) and the block-tree HTML
converter (src/unnamed/part_002, package tohtml2), together with theorems
settling the specification claims about them.

Conventions of the embedding:
* Go's `interface{}` values decoded from JSON are modelled by the `JVal`
  inductive (string / number / bool / null / array / object).
* Fallible Go functions returning `(T, error)` are modelled with `PResult`;
  a Go `panic` is a distinct `PResult.panic` outcome, kept separate from an
  `error` return so that "returns a decode error" and "panics" are
  distinguishable propositions.
* Mutable-converter methods become explicit state passing over `St`.
* Repository code that is not under src (the notionapi data-model accessors,
  id helpers, the external katex process, the OS file lookup) is modelled
  either as explicit fields of the context `Ctx` or by definitions whose doc
  comments start with "Modelled from the spec:".
-/

namespace NotionSpec

/-! ## String helpers shared by the converter (src/unnamed/part_002) -/

/-- Embeds `isSafeChar` (part_002 lines 26-37): ASCII digits and letters. -/
def isSafeChar (r : Char) : Bool :=
  (('0' ≤ r && r ≤ '9') || ('a' ≤ r && r ≤ 'z') || ('A' ≤ r && r ≤ 'Z'))

/-- One character of Go `html.EscapeString` composed with the two entity
rewrites done by `EscapeHTML` (part_002 lines 469-476): `&` to `&amp;`,
apostrophe to `&#x27;` (via `&#39;`), `<` to `&lt;`, `>` to `&gt;`,
double quote to `&quot;` (via `&#34;`); all other characters unchanged. -/
def escapeChar (ch : Char) : String :=
  if ch = '&' then "&amp;"
  else if ch = '\x27' then "&#x27;"
  else if ch = '<' then "&lt;"
  else if ch = '>' then "&gt;"
  else if ch = '"' then "&quot;"
  else String.singleton ch

/-- Embeds `EscapeHTML` (part_002 lines 468-476). The source escapes with
`html.EscapeString` and then canonicalizes the apostrophe and quote entities;
since stage one escapes every `&`, the two replacements only touch entities
produced from apostrophes and quotes, so the composition is the per-character
map `escapeChar`. -/
def EscapeHTML (s : String) : String :=
  String.join (s.toList.map escapeChar)

/-- Collapses every run of the character `c` to a single occurrence: the
fixpoint of the loop `for strings.Contains(res, cc) { res = Replace(res, cc, c) }`
used by `safeName` (part_002 line 50), `cleanAttr` (line 833) and
`getDownloadedFileName` (line 172). -/
def collapseRunsAux (c : Char) : List Char → Bool → List Char
  | [], _ => []
  | x :: rest, prevWas =>
    if x = c then
      if prevWas then collapseRunsAux c rest true
      else x :: collapseRunsAux c rest true
    else x :: collapseRunsAux c rest false

def collapseRuns (c : Char) (s : String) : String :=
  String.mk (collapseRunsAux c s.toList false)

/-- Go `strings.TrimLeft(s, " ")` / `TrimRight(s, " ")` for the space cutset. -/
def trimSpacesLeft (s : String) : String :=
  String.mk (s.toList.dropWhile (· = ' '))

def trimSpacesRight (s : String) : String :=
  String.mk ((s.toList.reverse.dropWhile (· = ' ')).reverse)

/-- Embeds `safeName` (part_002 lines 39-56): replace every non-safe character
by a space, collapse double spaces until none remain, trim spaces. -/
def safeName (s : String) : String :=
  let res := String.join (s.toList.map
    (fun r => if !(isSafeChar r) then " " else String.singleton r))
  let res := collapseRuns ' ' res
  trimSpacesRight (trimSpacesLeft res)

/-- Go `strings.TrimSpace`, used by `cleanAttr`. -/
def trimSpace (s : String) : String :=
  String.mk ((s.toList.dropWhile Char.isWhitespace).reverse.dropWhile
    Char.isWhitespace |>.reverse)

/-- Embeds `cleanAttr` (part_002 lines 830-840): trim whitespace, then replace
double spaces until none remain (the loop's fixpoint collapses space runs). -/
def cleanAttr (v : String) : String :=
  collapseRuns ' ' (trimSpace v)

/-- Go `strings.Split` for a one-character separator (every separator used by
the converter is one character), as a structural recursion over the
character list: `Split("", sep) = [""]` and each separator occurrence starts
a new field. -/
def splitOnCharList (c : Char) : List Char → List (List Char)
  | [] => [[]]
  | x :: rest =>
    match splitOnCharList c rest with
    | [] => [[]]
    | fld :: flds =>
      if x = c then [] :: fld :: flds else (x :: fld) :: flds

def goSplit (c : Char) (s : String) : List String :=
  (splitOnCharList c s.toList).map String.mk

/-- Embeds `urlBaseName` (part_002 lines 98-101): the last `/`-separated part. -/
def urlBaseName (uri : String) : String :=
  (goSplit '/' uri).getLastD ""

/-! ## The JSON-decoded value model -/

/-- The shapes a Go `interface{}` can take after `encoding/json` decoding:
string, number, bool, null, `[]interface{}`, `map[string]interface{}`. -/
inductive JVal where
  | str (s : String)
  | num (n : Int)
  | bool (b : Bool)
  | null
  | arr (xs : List JVal)
  | obj (fields : List (String × JVal))

def JVal.isArr : JVal → Bool
  | .arr _ => true
  | _ => false

def JVal.isStr : JVal → Bool
  | .str _ => true
  | _ => false

def JVal.isObj : JVal → Bool
  | .obj _ => true
  | _ => false

/-- Outcome of a fallible Go call: normal value, `error` return, or `panic`.
The panic channel keeps Go's unwinding failure distinct from an error that is
returned to the caller. -/
inductive PResult (α : Type) where
  | ok (a : α)
  | err (msg : String)
  | panic (msg : String)

def PResult.isDecodeErr {α : Type} : PResult α → Bool
  | .err _ => true
  | _ => false

def PResult.isPanic {α : Type} : PResult α → Bool
  | .panic _ => true
  | _ => false

def PResult.isOk {α : Type} : PResult α → Bool
  | .ok _ => true
  | _ => false

/-! ## The legacy inline-block parser (src/unnamed/part_000) -/

/-- A decoded date payload. The notionapi `Date` struct itself is outside
src; the embedding keeps the raw JSON object that the source re-marshals and
unmarshals into it. Decoding the object into the struct is modelled as
always succeeding (its failure path in the source is also a panic, through
`panic(err.Error())`). -/
structure NotionDate where
  rawJson : JVal

/-- Attribute bit flags (part_000 lines 16-27): `1 << iota` order. -/
def AttrBoldFlag : Nat := 1
def AttrCodeFlag : Nat := 2
def AttrItalicFlag : Nat := 4
def AttrStrikeThroughtFlag : Nat := 8
def AttrCommentFlag : Nat := 16

/-- Embeds `InlineBlock` (part_000 lines 31-41). -/
structure InlineBlock where
  Text : String
  AttrFlags : Nat
  Link : String
  UserID : String
  CommentID : String
  Date : Option NotionDate

/-- The zero-valued `InlineBlock{Text: s}` the parser starts from. -/
def InlineBlock.plain (s : String) : InlineBlock :=
  { Text := s, AttrFlags := 0, Link := "", UserID := "", CommentID := "",
    Date := none }

/-- Embeds `IsPlain` (part_000 lines 44-46). -/
def InlineBlock.IsPlain (b : InlineBlock) : Bool :=
  b.AttrFlags = 0 && b.Link = "" && b.UserID = "" && b.Date.isNone

/-- Embeds `parseAttribute` (part_000 lines 48-109). Note the `d` case: the
source performs the unchecked type assertion `a[1].(map[string]interface{})`,
which panics (it does not return an error) when the payload is not an object;
the assertion failure is modelled by `PResult.panic`. -/
def parseAttribute (b : InlineBlock) (a : List JVal) : PResult InlineBlock :=
  match a with
  | [] => .err "attribute array is empty"
  | a0 :: rest =>
    match a0 with
    | .str s =>
      if rest.length = 0 then
        if s = "b" then .ok { b with AttrFlags := b.AttrFlags ||| AttrBoldFlag }
        else if s = "i" then .ok { b with AttrFlags := b.AttrFlags ||| AttrItalicFlag }
        else if s = "s" then .ok { b with AttrFlags := b.AttrFlags ||| AttrStrikeThroughtFlag }
        else if s = "c" then .ok { b with AttrFlags := b.AttrFlags ||| AttrCodeFlag }
        else .err ("unexpected attribute " ++ s)
      else if rest.length ≠ 1 then
        .err "len(a) is not 2"
      else
        let v := rest.headD .null
        if s = "a" || s = "u" || s = "m" then
          match v with
          | .str sv =>
            if s = "a" then .ok { b with Link := sv }
            else if s = "u" then .ok { b with UserID := sv }
            else .ok { b with CommentID := sv }
          | _ => .err "value for attribute is not string"
        else if s = "d" then
          match v with
          | .obj fields => .ok { b with Date := some ⟨JVal.obj fields⟩ }
          | _ => .panic "interface conversion: a[1] is not map[string]interface"
        else .err ("unexpected attribute " ++ s)
    | _ => .err "a[0] is not string"

/-- Embeds `parseAttributes` (part_000 lines 111-123): fold `parseAttribute`
over the attribute tuples, propagating the first error (or panic). -/
def parseAttributes (b : InlineBlock) (a : List JVal) : PResult InlineBlock :=
  match a with
  | [] => .ok b
  | rawAttr :: rest =>
    match rawAttr with
    | .arr attrList =>
      match parseAttribute b attrList with
      | .ok b2 => parseAttributes b2 rest
      | .err m => .err m
      | .panic m => .panic m
    | _ => .err "rawAttr is not a list"

/-- Embeds `parseInlineBlock` (part_000 lines 125-159). -/
def parseInlineBlock (a : List JVal) : PResult InlineBlock :=
  match a with
  | [] => .err "a is empty"
  | [a0] =>
    match a0 with
    | .str s => .ok (InlineBlock.plain s)
    | _ => .err "a is of length 1 but not string"
  | [a0, a1] =>
    match a0 with
    | .str s =>
      match a1 with
      | .arr attrs => parseAttributes (InlineBlock.plain s) attrs
      | _ => .err "a[1] is not a list"
    | _ => .err "a[0] is not string"
  | _ => .err "a is of length different from 2"

/-- The element loop of `parseInlineBlocks` (part_000 lines 170-180),
accumulating parsed blocks in order. -/
def parseInlineBlocksGo (vs : List JVal) (acc : List InlineBlock) :
    PResult (List InlineBlock) :=
  match vs with
  | [] => .ok acc
  | v :: rest =>
    match v with
    | .arr a2 =>
      match parseInlineBlock a2 with
      | .ok block => parseInlineBlocksGo rest (acc ++ [block])
      | .err m => .err m
      | .panic m => .panic m
    | _ => .err "v is not a list"

/-- Embeds `parseInlineBlocks` (part_000 lines 161-182): the outer value must
be a non-empty array; each element parses through `parseInlineBlock`. -/
def parseInlineBlocks (raw : JVal) : PResult (List InlineBlock) :=
  match raw with
  | .arr a =>
    if a.length = 0 then .err "raw is empty"
    else parseInlineBlocksGo a []
  | _ => .err "raw is not a list"

/-! ## The renderer data model

The converter in src/unnamed/part_002 renders `notionapi.TextSpan` values and
`notionapi.Block` trees; those type definitions and their accessors live in
repository files outside src. They are modelled here after spec section 3. -/

/-- Modelled from the spec: a `TextSpan` attribute is a tagged variant of
bold / italic / strikethrough / code (no payload), highlight (color name),
link (URI), page reference, user reference, date reference and comment
reference; the `notionapi.Attr*` accessors used by `RenderInline`
(`AttrGetType`, `AttrGetHighlight`, `AttrGetLink`, `AttrGetPageID`,
`AttrGetUserID`, `AttrGetDate`) correspond to matching on the variant. -/
inductive Attr where
  | bold
  | italic
  | strikeThrought
  | code
  | highlight (color : String)
  | link (uri : String)
  | page (pageID : String)
  | user (userID : String)
  | date (d : NotionDate)
  | comment (commentID : String)

/-- Modelled from the spec: a `TextSpan` is plain text plus an ordered
attribute list, declared outer-to-inner in source order. -/
structure TextSpan where
  Text : String
  Attrs : List Attr

/-- Modelled from the spec: a collection schema column has a display name and
a declared type (for example "title", "text", "multi_select"). -/
structure ColumnInfo where
  Name : String
  typ : String

/-- Modelled from the spec: a collection has a display name, an icon URI and
an ordered schema mapping column keys to `ColumnInfo`. The `col.Name()`
accessor of the source resolves the display name; it is kept as the `name`
field here. -/
structure Collection where
  name : String
  Icon : String
  CollectionSchema : List (String × ColumnInfo)

def Collection.schemaGet (c : Collection) (key : String) : Option ColumnInfo :=
  (c.CollectionSchema.lookup key)

/-- A visible table column of a collection view: its `Property` is the
column key (`view.Format.TableProperties` in the source). -/
structure TableColumn where
  Property : String

/-- Modelled from the spec: a collection view; `hasFormat := false` stands
for the source's `view.Format == nil`. -/
structure CollectionView where
  hasFormat : Bool
  TableProperties : List TableColumn

/-- A collection row. In the source rows are `*notionapi.Block` values used
only through `row.ID`, `row.Properties[...]` and `row.GetTitle()`; the
embedding keeps exactly those parts (`titleSpans` models the `GetTitle`
accessor, which lives outside src). -/
structure RowBlock where
  id : String
  properties : List (String × JVal)
  titleSpans : List TextSpan

/-- One entry of `block.CollectionViews`: view plus collection plus rows. -/
structure CollViewInfo where
  CollectionView : CollectionView
  Collection : Collection
  CollectionRows : List RowBlock

/-- Modelled from the spec: the page-format record (`block.FormatPage()`).
`coverPositionStr` holds the rendered `object-position` percentage; the
float arithmetic `(1 - PageCoverPosition) * 100` of the source is not
statable over floats and is abstracted into this pre-rendered field. -/
structure FormatPage where
  pageFont : String
  coverPositionStr : String

/-- Modelled from the spec: the image-format record (`block.FormatImage()`),
with the float `BlockWidth` kept as the integer it is printed as. -/
structure FormatImage where
  blockWidth : Int

/-- A node of the document tree, after spec section 3 (the `notionapi.Block`
struct is outside src). `props` backs the `PropAsString` accessor with
fully-dotted keys; `caption` backs `GetCaption`; `columnRatioStr` backs the
column-format ratio (pre-rendered, floats are abstracted). The transient
`Parent` back-reference of the source is not stored: the renderer passes the
ancestor chain down the recursion instead. -/
structure Block where
  id : String
  typ : String
  title : String
  inline : List TextSpan
  content : List Block
  isChecked : Bool
  codeText : String
  link : String
  source : String
  fileIDs : List String
  props : List (String × String)
  caption : Option (List TextSpan)
  formatPage : Option FormatPage
  formatImage : Option FormatImage
  columnRatioStr : Option String
  collectionID : String
  collectionViews : List CollViewInfo

/-- Embeds `Block.PropAsString` (accessor outside src, modelled from the
spec's free-form property mapping): value plus presence flag. -/
def Block.PropAsString (b : Block) (key : String) : String × Bool :=
  match b.props.lookup key with
  | some v => (v, true)
  | none => ("", false)

/-- Modelled from the spec: the block-type tag constants of the notionapi
package (defined outside src). Only their distinctness matters here. -/
def BlockPage : String := "page"
def BlockText : String := "text"
def BlockBookmark : String := "bookmark"
def BlockBulletedList : String := "bulleted_list"
def BlockNumberedList : String := "numbered_list"
def BlockToggle : String := "toggle"
def BlockTodo : String := "to_do"
def BlockDivider : String := "divider"
def BlockImage : String := "image"
def BlockHeader : String := "header"
def BlockSubHeader : String := "sub_header"
def BlockSubSubHeader : String := "sub_sub_header"
def BlockQuote : String := "quote"
def BlockEquation : String := "equation"
def BlockCode : String := "code"
def BlockFile : String := "file"
def BlockVideo : String := "video"
def BlockAudio : String := "audio"
def BlockPDF : String := "pdf"
def BlockEmbed : String := "embed"
def BlockGist : String := "gist"
def BlockTweet : String := "tweet"
def BlockMaps : String := "maps"
def BlockCodepen : String := "codepen"
def BlockFigma : String := "figma"
def BlockDrive : String := "drive"
def BlockCollectionView : String := "collection_view"
def BlockCollectionViewPage : String := "collection_view_page"
def BlockColumnList : String := "column_list"
def BlockColumn : String := "column"
def BlockCallout : String := "callout"
def BlockTableOfContents : String := "table_of_contents"
def BlockBreadcrumb : String := "breadcrumb"
def BlockFactory : String := "factory"

/-! ## Converter state and context -/

/-- The mutable part of `Converter` (part_002 lines 202-258): output buffer,
buffer stack, numbered-list counter, active sibling sequence and index, and
the katex-CSS import latch. -/
structure St where
  buf : String
  bufs : List String
  listNo : Int
  currBlocks : List Block
  currBlockIdx : Nat
  didImportKatexCSS : Bool

/-- The configuration part of `Converter`, plus the pieces of the repository
and of the environment that the converter calls into but that are outside
src. `statOk` models `os.Stat` succeeding on a path, `lookPath` models
`exec.LookPath("katex")`, `katexRun` models running the katex binary at a
path on an equation (`equationToHTML`, part_002 lines 642-668, whose own body
is process plumbing); `blockTitleByID` models `c.Page.BlockByID(id).Title`
with `none` for a missing block; `resolveUser`, `formatDateRaw`,
`toNoDashID`, `collectionByID`, `isRootBlock`, `isSubPage`, `parseSpans`
(for `notionapi.ParseTextSpans`, total because the source routes its error
into a diagnostic) and `css` model the same-named notionapi helpers, all
modelled from the spec. -/
structure Ctx where
  notionCompat : Bool
  useKatex : Bool
  katexPath : String
  addHeaderAnchor : Bool
  fullHTML : Bool
  rewriteURL : Option (String → String)
  renderBlockOverride : Option (Block → St → Bool × St)
  pageRoot : Block
  pageID : String
  statOk : String → Bool
  lookPath : Option String
  katexRun : String → String → Except String String
  blockTitleByID : String → Option String
  resolveUser : String → String
  formatDateRaw : NotionDate → String
  toNoDashID : String → String
  collectionByID : String → Collection
  isRootBlock : Block → Bool
  isSubPage : Block → Bool
  parseSpans : JVal → List TextSpan
  css : String

/-- Embeds `Printf` (part_002 lines 299-305): append to the active buffer
(format expansion is written out as explicit concatenation at call sites). -/
def printf (st : St) (s : String) : St :=
  { st with buf := st.buf ++ s }

/-- Embeds `PushNewBuffer` (part_002 lines 284-288). -/
def pushNewBuffer (st : St) : St :=
  { st with bufs := st.buf :: st.bufs, buf := "" }

/-- Embeds `PopBuffer` (part_002 lines 290-297), returning the popped buffer
content. Popping with an empty stack indexes out of bounds in the source (a
programming error per spec section 4.4); the embedding returns the state
unchanged in that unreachable case. -/
def popBuffer (st : St) : String × St :=
  match st.bufs with
  | [] => (st.buf, st)
  | b :: rest => (st.buf, { st with buf := b, bufs := rest })

/-- Embeds `PrevBlock` (part_002 lines 324-330). An index past the end of
`currBlocks` cannot occur during a traversal; there `get?` mirrors the
source's in-bounds indexing. -/
def prevBlock (st : St) : Option Block :=
  if st.currBlockIdx = 0 then none
  else st.currBlocks.get? (st.currBlockIdx - 1)

/-- Embeds `NextBlock` (part_002 lines 332-340). -/
def nextBlock (st : St) : Option Block :=
  if st.currBlockIdx + 1 > st.currBlocks.length - 1 then none
  else st.currBlocks.get? (st.currBlockIdx + 1)

/-- Embeds `IsPrevBlockOfType` (part_002 lines 342-349). -/
def isPrevBlockOfType (st : St) (t : String) : Bool :=
  match prevBlock st with
  | none => false
  | some b => b.typ = t

/-- Embeds `IsNextBlockOfType` (part_002 lines 351-358). -/
def isNextBlockOfType (st : St) (t : String) : Bool :=
  match nextBlock st with
  | none => false
  | some b => b.typ = t

/-- Applies the optional URL-rewrite hook, as done at every
`if c.RewriteURL != nil` site. -/
def applyRewrite (ctx : Ctx) (uri : String) : String :=
  match ctx.rewriteURL with
  | some f => f uri
  | none => uri

/-- Embeds `FormatDate` (part_002 lines 360-365). -/
def formatDateConv (ctx : Ctx) (d : NotionDate) : String :=
  "<time>@" ++ ctx.formatDateRaw d ++ "</time>"

/-! ## RenderInline (part_002 lines 367-435) -/

/-- One iteration of the attribute loop of `RenderInline`: the accumulator is
`(start, close, text)` exactly as in the source; the loop body matches on the
attribute variant. An `AttrComment` attribute falls through the source's
`switch` without a case and leaves the accumulator unchanged. -/
def renderInlineStep (ctx : Ctx) (acc : String × String × String)
    (attr : Attr) : String × String × String :=
  let (start, close, text) := acc
  match attr with
  | .highlight hl =>
    (start ++ "<mark class=\"highlight-" ++ hl ++ "\">", "</mark>" ++ close, text)
  | .bold => (start ++ "<strong>", "</strong>" ++ close, text)
  | .italic => (start ++ "<em>", "</em>" ++ close, text)
  | .strikeThrought => (start ++ "<del>", "</del>" ++ close, text)
  | .code => (start ++ "<code>", "</code>" ++ close, text)
  | .page pageID =>
    let pageTitle := (ctx.blockTitleByID pageID).getD ""
    let relURL0 := ctx.toNoDashID pageID
    let relURL :=
      if pageTitle ≠ "" then
        ((safeName pageTitle).replace " " "-") ++ "-" ++ relURL0
      else relURL0
    let uri := applyRewrite ctx ("https://www.notion.so/" ++ relURL)
    (start ++ "<a href=\"" ++ uri ++ "\">" ++ EscapeHTML pageTitle ++ "</a>",
     close, "")
  | .link uri0 =>
    let uri := applyRewrite ctx uri0
    if uri = "" then (start ++ "<a>", "</a>" ++ close, text)
    else
      (start ++ "<a href=\"" ++ EscapeHTML uri ++ "\">", "</a>" ++ close, text)
  | .user userID =>
    (start ++ "<span class=\"user\">@" ++ ctx.resolveUser userID ++ "</span>",
     close, "")
  | .date d => (start ++ formatDateConv ctx d, close, "")
  | .comment _ => (start, close, text)

/-- Embeds `RenderInline` as the string it writes: the attribute list is
iterated in reverse declaration order (`b.Attrs[len(b.Attrs)-i-1]`), then the
output is `start + EscapeHTML(text) + close`. -/
def renderInlineStr (ctx : Ctx) (b : TextSpan) : String :=
  let acc := (b.Attrs.reverse).foldl (renderInlineStep ctx) ("", "", b.Text)
  acc.1 ++ EscapeHTML acc.2.2 ++ acc.2.1

/-- Embeds `RenderInlines` (part_002 lines 437-442). -/
def renderInlines (ctx : Ctx) (st : St) (blocks : List TextSpan) : St :=
  blocks.foldl (fun s sp => printf s (renderInlineStr ctx sp)) st

/-- The string value computed by `GetInlineContent`. -/
def getInlineContent (ctx : Ctx) (blocks : List TextSpan) : String :=
  if blocks.isEmpty then ""
  else String.join (blocks.map (renderInlineStr ctx))

/-- Embeds `GetInlineContent` (part_002 lines 444-455): push a fresh buffer,
render the spans, pop, returning the captured string with the state. -/
def getInlineContentSt (ctx : Ctx) (st : St) (blocks : List TextSpan) :
    String × St :=
  if blocks.isEmpty then ("", st)
  else popBuffer (renderInlines ctx (pushNewBuffer st) blocks)

/-! ## File-path helpers (part_002 lines 58-193)

The source mutates a transient `Parent` back-reference while recursing; the
embedding passes the ancestor chain `anc` (nearest ancestor first) down the
recursion instead, so the source's `for block.Parent != nil` walks become
folds over `anc`. -/

/-- Go `path.Join(dir, file)` for the two-component uses in this file. -/
def pathJoin (dir file : String) : String :=
  if dir = "" then file else dir ++ "/" ++ file

def isURL (uri : String) : Bool :=
  uri.startsWith "http://" || uri.startsWith "https://"

/-- Embeds `fileNameFromPageCoverURL` (lines 58-62). -/
def fileNameFromPageCoverURL (uri : String) : String :=
  (goSplit '/' uri).getLastD ""

/-- Embeds `filePathFromPageCoverURL` (lines 64-84). -/
def filePathFromPageCoverURL (uri : String) (block : Block) : String :=
  if uri.startsWith "https://cdn.dutchcowboys.nl/uploads" then uri
  else if uri.startsWith "https://images.unsplash.com" then uri
  else if uri.startsWith "https://www.notion.so/images/" then uri
  else if uri.startsWith "/images/page-cover/" then "https://www.notion.so" ++ uri
  else pathJoin (safeName block.title) (fileNameFromPageCoverURL uri)

/-- Embeds `filePathForPage` (lines 86-96): the page's safe title plus
`.html`, prefixed by each page-typed ancestor from nearest outward. -/
def filePathForPage (block : Block) (anc : List Block) : String :=
  (anc.filter (fun p => p.typ = BlockPage)).foldl
    (fun n p => safeName p.title ++ "/" ++ n)
    (safeName block.title ++ ".html")

/-- Embeds `filePathForCollection` (lines 103-107). -/
def filePathForCollection (ctx : Ctx) (col : Collection) : String :=
  safeName ctx.pageRoot.title ++ "/" ++ (safeName col.name ++ ".html")

/-- Embeds `getCollectionDownloadedFileName` (lines 136-141). -/
def getCollectionDownloadedFileName (ctx : Ctx) (col : Collection)
    (uri : String) : String :=
  safeName ctx.pageRoot.title ++ "/" ++ (safeName col.name ++ "/" ++ urlBaseName uri)

/-- Embeds `getDownloadedFileName` (lines 143-176): only secure notion-static
URIs are rewritten; the fixpoint of the `//`-collapsing loop is `collapseRuns`. -/
def getDownloadedFileName (uri : String) (block : Block) (anc : List Block) :
    String :=
  if !(uri.startsWith "https://s3-us-west-2.amazonaws.com/secure.notion-static.com/")
  then uri
  else
    let name := urlBaseName uri
    let name :=
      if block.typ = BlockFile then name else safeName block.title ++ "/" ++ name
    let parents := (anc.filter (fun p => p.typ = BlockPage)).map
      (fun p => safeName p.title)
    let name := parents.foldl (fun n s => s ++ "/" ++ n) name
    collapseRuns '/' name

/-- Embeds `getFileOrSourceURL` (lines 178-183). -/
def getFileOrSourceURL (block : Block) (anc : List Block) : String :=
  if block.fileIDs.length > 0 then getDownloadedFileName block.source block anc
  else block.source

/-- Embeds `getTitleColDownloadedURL` (lines 109-134). -/
def getTitleColDownloadedURL (row : RowBlock) (block : Block)
    (anc : List Block) (col : Collection) : String :=
  let title :=
    match row.titleSpans with
    | [] => ""
    | sp :: _ => sp.Text
  let title := if title = "" then "Untitled" else title
  let name := safeName title ++ ".html"
  let colName := if col.name = "" then "Untitled Database" else col.name
  let name := safeName colName ++ "/" ++ name
  (anc.filter (fun p => p.typ = BlockPage)).foldl
    (fun n p => safeName p.title ++ "/" ++ n) name

/-! ## Non-recursive block renderers (part_002) -/

/-- Embeds the `A` helper (part_002 lines 307-322) as the string it writes. -/
def aTag (uri text cls : String) : String :=
  let uri := EscapeHTML uri
  let text := EscapeHTML text
  let cls := if cls ≠ "" then " class=\"" ++ cls ++ "\"" else ""
  if uri = "" then "<a" ++ cls ++ ">" ++ text ++ "</a>"
  else "<a" ++ cls ++ " href=\"" ++ uri ++ "\">" ++ text ++ "</a>"

def emitA (st : St) (uri text cls : String) : St :=
  printf st (aTag uri text cls)

/-- Embeds `getBlockColorClass` (lines 625-631). -/
def getBlockColorClass (block : Block) : String :=
  let col := (block.PropAsString "format.block_color").1
  if col = "" then "" else "block-color-" ++ col

/-- Embeds `RenderCode` (lines 457-466). -/
def renderCode (st : St) (block : Block) : St :=
  let st := printf st ("<pre id=\"" ++ block.id ++ "\" class=\"code\">")
  let st := printf st ("<code>" ++ EscapeHTML block.codeText ++ "</code>")
  printf st "</pre>"

/-- Embeds `RenderCaption` (lines 941-949). -/
def renderCaption (ctx : Ctx) (st : St) (block : Block) : St :=
  match block.caption with
  | none => st
  | some caption =>
    let st := printf st "<figcaption>"
    let st := renderInlines ctx st caption
    printf st "</figcaption>"

/-- Embeds `RenderBookmark` (lines 951-969). -/
def renderBookmark (ctx : Ctx) (st : St) (block : Block) : St :=
  let st := printf st ("<figure id=\"" ++ block.id ++ "\">")
  let cls := cleanAttr (getBlockColorClass block ++ " bookmark source")
  let st := printf st ("<div class=\"" ++ cls ++ "\">")
  let st := emitA st block.link block.title ""
  let st := printf st "<br/>"
  let st := emitA st block.link block.link "bookmark-href"
  let st := printf st "</div>"
  let st := renderCaption ctx st block
  printf st "</figure>"

/-- Embeds `RenderAudio` (lines 971-992); `RenderVideo` (994-1015) is the
same emission. -/
def renderAudioVideo (ctx : Ctx) (anc : List Block) (st : St) (block : Block) :
    St :=
  let st := printf st ("<figure id=\"" ++ block.id ++ "\">")
  let st := printf st "<div class=\"source\">"
  let source := block.source
  let fileName :=
    if block.fileIDs.length > 0 then getDownloadedFileName source block anc
    else source
  let st :=
    if source = "" then printf st "<a></a>"
    else emitA st fileName source ""
  let st := printf st "</div>"
  let st := renderCaption ctx st block
  printf st "</figure>"

/-- Embeds the lower-case `renderEmbed` helper (lines 1017-1029) used by
tweet, gist, codepen and maps blocks. -/
def renderEmbedHelper (ctx : Ctx) (st : St) (block : Block) : St :=
  let st := printf st ("<figure id=\"" ++ block.id ++ "\">")
  let st := printf st "<div class=\"source\">"
  let st := emitA st block.source block.source ""
  let st := printf st "</div>"
  let st := renderCaption ctx st block
  printf st "</figure>"

/-- Embeds `RenderEmbed` (lines 1051-1065). -/
def renderEmbedBlock (ctx : Ctx) (anc : List Block) (st : St) (block : Block) :
    St :=
  let st := printf st ("<figure id=\"" ++ block.id ++ "\">")
  let st := printf st "<div class=\"source\">"
  let st := emitA st (getFileOrSourceURL block anc) block.source ""
  let st := printf st "</div>"
  let st := renderCaption ctx st block
  printf st "</figure>"

/-- Embeds `RenderFigma` (lines 1067-1081); the href is not escaped there. -/
def renderFigma (ctx : Ctx) (st : St) (block : Block) : St :=
  let st := printf st ("<figure id=\"" ++ block.id ++ "\">")
  let st := printf st "<div class=\"source\">"
  let st := printf st
    ("<a href=\"" ++ block.source ++ "\">" ++ block.source ++ "</a>")
  let st := printf st "</div>"
  let st := renderCaption ctx st block
  printf st "</figure>"

/-- Embeds `RenderFile` (lines 1083-1096). -/
def renderFile (ctx : Ctx) (anc : List Block) (st : St) (block : Block) : St :=
  let st := printf st ("<figure id=\"" ++ block.id ++ "\">")
  let st := printf st "<div class=\"source\">"
  let st := emitA st (getDownloadedFileName block.source block anc) block.source ""
  let st := printf st "</div>"
  let st := renderCaption ctx st block
  printf st "</figure>"

/-- Embeds `RenderDrive` (lines 1098-1117). -/
def renderDrive (ctx : Ctx) (st : St) (block : Block) : St :=
  let st := printf st ("<figure id=\"" ++ block.id ++ "\">")
  let st := printf st "<div class=\"bookmark source\">"
  let icon := (block.PropAsString "format.drive_properties.icon").1
  let st := printf st
    ("<img style=\"width:1em;height:1em;margin-right:0.5em;vertical-align:text-bottom\" src=\""
      ++ icon ++ "\"/>")
  let docURL := (block.PropAsString "format.drive_properties.url").1
  let title := (block.PropAsString "format.drive_properties.title").1
  let st := printf st ("<a href=\"" ++ docURL ++ "\">" ++ title ++ "</a>")
  let st := printf st "<br/>"
  let st := printf st
    ("<a class=\"bookmark-href\" href=\"" ++ docURL ++ "\">" ++ docURL ++ "</a>")
  let st := printf st "</div>"
  let st := renderCaption ctx st block
  printf st "</figure>"

/-- Embeds `RenderPDF` (lines 1119-1130). -/
def renderPDF (ctx : Ctx) (anc : List Block) (st : St) (block : Block) : St :=
  let st := printf st ("<figure id=\"" ++ block.id ++ "\">")
  let st := printf st "<div class=\"source\">"
  let st := emitA st (getDownloadedFileName block.source block anc) block.source ""
  let st := printf st "</div>"
  let st := renderCaption ctx st block
  printf st "</figure>"

/-- Embeds `getImageStyle` (lines 1132-1138). -/
def getImageStyle (block : Block) : String :=
  match block.formatImage with
  | none => ""
  | some f =>
    if f.blockWidth = 0 then ""
    else "style=\"width:" ++ toString f.blockWidth ++ "px\" "

/-- Embeds `RenderImage` (lines 1140-1153). -/
def renderImage (ctx : Ctx) (anc : List Block) (st : St) (block : Block) : St :=
  let st := printf st ("<figure id=\"" ++ block.id ++ "\" class=\"image\">")
  let uri := getFileOrSourceURL block anc
  let style := getImageStyle block
  let st := printf st ("<a href=\"" ++ uri ++ "\">")
  let st := printf st ("<img " ++ style ++ "src=\"" ++ uri ++ "\"/>")
  let st := printf st "</a>"
  let st := renderCaption ctx st block
  printf st "</figure>"

/-- Embeds `RenderDivider` (lines 936-939). -/
def renderDivider (st : St) (block : Block) : St :=
  printf st ("<hr id=\"" ++ block.id ++ "\"/>")

/-- Embeds `RenderNYI` (lines 1191-1193). -/
def renderNYI (st : St) (block : Block) : St :=
  printf st ("<div>TODO: \x27" ++ block.typ ++ "\x27 NYI!</div>")

/-- Embeds `RenderBreadcrumb` (lines 1181-1189). -/
def renderBreadcrumb (ctx : Ctx) (st : St) (block : Block) : St :=
  if ctx.notionCompat then st else renderNYI st block

/-- Embeds `RenderCallout` (lines 842-862). -/
def renderCallout (ctx : Ctx) (st : St) (block : Block) : St :=
  let cls := cleanAttr (getBlockColorClass block ++ " callout")
  let st := printf st
    ("<figure class=\"" ++ cls
      ++ "\" style=\"white-space:pre-wrap;display:flex\" id=\"" ++ block.id ++ "\">")
  let st := printf st "<div style=\"font-size:1.5em\">"
  let pageIcon := (block.PropAsString "format.page_icon").1
  let st := printf st ("<span class=\"icon\">" ++ pageIcon ++ "</span>")
  let st := printf st "</div>"
  let st := printf st "<div style=\"width:100%\">"
  let st := renderInlines ctx st block.inline
  let st := printf st "</div>"
  printf st "</figure>"

/-- Modelled from the spec: `notionapi.TextSpansToString`, the raw inline
text of the spans (accessor outside src; used only as the input that
`RenderEquation` pipes to the external typesetter). -/
def textSpansToString (ts : List TextSpan) : String :=
  String.join (ts.map (fun sp => sp.Text))

/-- Embeds `RenderEquation` (lines 670-702). The external `equationToHTML`
call (lines 642-668, pure process plumbing around the katex binary) is the
`ctx.katexRun` oracle applied to the katex path and the equation text; any
process failure or non-zero exit is its `Except.error` case. -/
def renderEquation (ctx : Ctx) (st : St) (block : Block) : St :=
  if !ctx.useKatex then
    let st := printf st ("<figure id=\"" ++ block.id ++ "\" class=\"equation\">")
    let st := renderInlines ctx st block.inline
    printf st "</figure>"
  else
    let s := textSpansToString block.inline
    match ctx.katexRun ctx.katexPath s with
    | .error _ =>
      let st := printf st ("<figure id=\"" ++ block.id ++ "\" class=\"equation\">")
      let st := renderInlines ctx st block.inline
      printf st "</figure>"
    | .ok html =>
      let st := printf st ("<figure id=\"" ++ block.id ++ "\" class=\"equation\">")
      let st :=
        if !st.didImportKatexCSS then
          let st := printf st "<style>@import url(\x27https://cdnjs.cloudflare.com/ajax/libs/KaTeX/0.10.0/katex.min.css\x27)</style>"
          { st with didImportKatexCSS := true }
        else st
      let st := printf st "<div class=\"equation-container\">"
      let st := printf st html
      let st := printf st "</div>"
      printf st "</figure>"

/-- The anchor-icon SVG emitted by `RenderHeaderLevel` when
`AddHeaderAnchor` is set (line 749), minus the leading anchor element that
depends on the block id. -/
def headerAnchorSVG : String :=
  "<svg xmlns=\"http://www.w3.org/2000/svg\" viewBox=\"0 0 8 8\"><path d=\"M5.88.03c-.18.01-.36.03-.53.09-.27.1-.53.25-.75.47a.5.5 0 1 0 .69.69c.11-.11.24-.17.38-.22.35-.12.78-.07 1.06.22.39.39.39 1.04 0 1.44l-1.5 1.5c-.44.44-.8.48-1.06.47-.26-.01-.41-.13-.41-.13a.5.5 0 1 0-.5.88s.34.22.84.25c.5.03 1.2-.16 1.81-.78l1.5-1.5c.78-.78.78-2.04 0-2.81-.28-.28-.61-.45-.97-.53-.18-.04-.38-.04-.56-.03zm-2 2.31c-.5-.02-1.19.15-1.78.75l-1.5 1.5c-.78.78-.78 2.04 0 2.81.56.56 1.36.72 2.06.47.27-.1.53-.25.75-.47a.5.5 0 1 0-.69-.69c-.11.11-.24.17-.38.22-.35.12-.78.07-1.06-.22-.39-.39-.39-1.04 0-1.44l1.5-1.5c.4-.4.75-.45 1.03-.44.28.01.47.09.47.09a.5.5 0 1 0 .44-.88s-.34-.2-.84-.22z\"></path></svg>"

/-- Embeds `RenderHeaderLevel` (lines 743-753); `RenderHeader`,
`RenderSubHeader` and `RenderSubSubHeader` (lines 755-768) call it with
levels 1, 2, 3. -/
def renderHeaderLevel (ctx : Ctx) (st : St) (block : Block) (level : Nat) : St :=
  let cls := getBlockColorClass block
  let st := printf st
    ("<h" ++ toString level ++ " id=\"" ++ block.id ++ "\" class=\"" ++ cls ++ "\">")
  let st :=
    if ctx.addHeaderAnchor then
      printf st
        ("<a class=\"notion-header-anchor\" href=\"#" ++ block.id
          ++ "\" aria-hidden=\"true\">" ++ headerAnchorSVG ++ "</a>")
    else st
  let st := renderInlines ctx st block.inline
  printf st ("</h" ++ toString level ++ ">")

/-- Embeds `RenderTodo` minus its `RenderChildren` call: the part of the
emission (lines 770-795) before the children recursion. The recursive
remainder lives in `renderBlock`'s dispatch. -/
def renderTodoOpen (ctx : Ctx) (st : St) (block : Block) : St :=
  let st := printf st ("<ul id=\"" ++ block.id ++ "\" class=\"to-do-list\">")
  let st := printf st "<li>"
  let cls := if block.isChecked then "checkbox-on" else "checkbox-off"
  let st := printf st ("<div class=\"checkbox " ++ cls ++ "\"></div>")
  let cls :=
    if block.isChecked then "to-do-children-checked"
    else "to-do-children-unchecked"
  let st := printf st ("<span class=\"" ++ cls ++ "\">")
  let st := renderInlines ctx st block.inline
  printf st "</span>"

/-- Embeds `renderHeader` (lines 488-525), the page header region. -/
def renderPageHeader (ctx : Ctx) (anc : List Block) (st : St) (block : Block) :
    St :=
  let st := printf st "<header>"
  let pageCover := (block.PropAsString "format.page_cover").1
  let st :=
    if pageCover ≠ "" then
      let position := ((block.formatPage.map (fun fp => fp.coverPositionStr)).getD "")
      let coverURL := EscapeHTML (filePathFromPageCoverURL pageCover block)
      printf st
        ("<img class=\"page-cover-image\" src=\"" ++ coverURL
          ++ "\" style=\"object-position:center " ++ position ++ "%\"/>")
    else st
  let pageIcon := (block.PropAsString "format.page_icon").1
  let st :=
    if pageIcon ≠ "" then
      let clsCover :=
        if pageCover ≠ "" then "page-header-icon-with-cover" else "undefined"
      let st := printf st ("<div class=\"page-header-icon " ++ clsCover ++ "\">")
      let st :=
        if isURL pageIcon then
          printf st
            ("<img class=\"icon\" src=\""
              ++ getDownloadedFileName pageIcon block anc ++ "\"/>")
        else printf st ("<span class=\"icon\">" ++ pageIcon ++ "</span>")
      printf st "</div>"
    else st
  let st := printf st "<h1 class=\"page-title\">"
  let st := renderInlines ctx st block.inline
  let st := printf st "</h1>"
  printf st "</header>"

/-- Embeds `renderLinkToPage` (lines 547-568). -/
def renderLinkToPage (ctx : Ctx) (anc : List Block) (st : St) (block : Block) :
    St :=
  let uri := filePathForPage block anc
  let cls := cleanAttr (getBlockColorClass block ++ " link-to-page")
  let st := printf st ("<figure id=\"" ++ block.id ++ "\" class=\"" ++ cls ++ "\">")
  let st := printf st ("<a href=\"" ++ uri ++ "\">")
  let (pageIcon, ok) := block.PropAsString "format.page_icon"
  let st :=
    if ok then
      if isURL pageIcon then
        printf st
          ("<img class=\"icon\" src=\""
            ++ getDownloadedFileName pageIcon block anc ++ "\"/>")
      else printf st ("<span class=\"icon\">" ++ pageIcon ++ "</span>")
    else st
  let st := printf st (EscapeHTML block.title)
  let st := printf st "</a>"
  printf st "</figure>"

/-- Embeds `RenderCollectionViewPage` (lines 527-545). -/
def renderCollectionViewPage (ctx : Ctx) (st : St) (block : Block) : St :=
  let col := ctx.collectionByID block.collectionID
  let st := printf st ("<figure id=\"" ++ block.id ++ "\" class=\"link-to-page\">")
  let st := printf st ("<a href=\"" ++ filePathForCollection ctx col ++ "\">")
  let st := printf st
    ("<img class=\"icon\" src=\""
      ++ getCollectionDownloadedFileName ctx col col.Icon ++ "\"/>")
  let st := printf st (col.name ++ "</a>")
  printf st "</figure>"

/-! ## Table of contents (part_002 lines 864-934) -/

/-- Embeds `isHeaderBlock` (lines 864-870). -/
def isHeaderBlock (block : Block) : Bool :=
  block.typ = BlockHeader || block.typ = BlockSubHeader
    || block.typ = BlockSubSubHeader

/-- Embeds `getHeaderBlocks` (lines 872-886): collect heading blocks in
document order; a heading contributes itself and is not descended into, any
other block contributes its subtree's headings. -/
def getHeaderBlocks : List Block → List Block
  | [] => []
  | b :: rest =>
    if isHeaderBlock b then b :: getHeaderBlocks rest
    else if b.content.length = 0 then getHeaderBlocks rest
    else getHeaderBlocks b.content ++ getHeaderBlocks rest
termination_by bs => sizeOf bs
decreasing_by
  all_goals simp_wf
  all_goals try omega
  all_goals (cases b; simp; omega)

/-- Embeds `cmpBlockTypes` (lines 888-906). -/
def cmpBlockTypes (prev curr : String) : Int :=
  if prev = curr then 0
  else if prev = BlockHeader then 1
  else if prev = BlockSubHeader then
    if curr = BlockHeader then -1 else 1
  else if prev = BlockSubSubHeader then -1
  else 0

/-- The placeholder block used to make list indexing total; every use of
`adjustIndent` in the source indexes in bounds. -/
def blockStub : Block :=
  { id := "", typ := "", title := "", inline := [], content := [],
    isChecked := false, codeText := "", link := "", source := "",
    fileIDs := [], props := [], caption := none, formatPage := none,
    formatImage := none, columnRatioStr := none, collectionID := "",
    collectionViews := [] }

/-- Embeds `adjustIndent` (lines 908-915). -/
def adjustIndent (blocks : List Block) (i : Nat) : Int :=
  if i = 0 then 0
  else cmpBlockTypes (blocks.getD (i - 1) blockStub).typ
    (blocks.getD i blockStub).typ

/-- The running indent values produced by the loop of
`RenderTableOfContents` (lines 923-932): entry `i` is the previous indent
plus `adjustIndent blocks i`. The fuel argument counts remaining entries. -/
def tocIndentsGo (blocks : List Block) : Nat → Int → Nat → List Int
  | _, _, 0 => []
  | i, indent, n + 1 =>
    let ind := indent + adjustIndent blocks i
    ind :: tocIndentsGo blocks (i + 1) ind n

/-- The indent level of every table-of-contents entry, in document order. -/
def tocIndents (blocks : List Block) : List Int :=
  tocIndentsGo blocks 0 0 blocks.length

/-- The markup of one table-of-contents entry at a given indent. -/
def tocEntryStr (ctx : Ctx) (b : Block) (ind : Int) : String :=
  "<div class=\"table_of_contents-item table_of_contents-indent-"
    ++ toString ind ++ "\">"
    ++ "<a class=\"table_of_contents-link\" href=\"#" ++ b.id ++ "\">"
    ++ getInlineContent ctx b.inline ++ "</a>" ++ "</div>"

/-- The body loop of `RenderTableOfContents` (lines 923-932). -/
def tocEmitGo (ctx : Ctx) (blocks : List Block) : Nat → Int → Nat → St → St
  | _, _, 0, st => st
  | i, indent, n + 1, st =>
    let b := blocks.getD i blockStub
    let ind := indent + adjustIndent blocks i
    let (s, st) := getInlineContentSt ctx st b.inline
    let st := printf st
      ("<div class=\"table_of_contents-item table_of_contents-indent-"
        ++ toString ind ++ "\">")
    let st := printf st
      ("<a class=\"table_of_contents-link\" href=\"#" ++ b.id ++ "\">" ++ s ++ "</a>")
    let st := printf st "</div>"
    tocEmitGo ctx blocks (i + 1) ind n st

/-- Embeds `RenderTableOfContents` (lines 917-934): scan the whole page
subtree for headings, then emit one indented link per heading. -/
def renderTableOfContents (ctx : Ctx) (st : St) (block : Block) : St :=
  let cls := cleanAttr (getBlockColorClass block ++ " table_of_contents")
  let st := printf st ("<nav id=\"" ++ block.id ++ "\" class=\"" ++ cls ++ "\">")
  let blocks := getHeaderBlocks ctx.pageRoot.content
  let st := tocEmitGo ctx blocks 0 0 blocks.length st
  printf st "</nav>"

/-! ## Collection view (part_002 lines 1195-1281) -/

/-- One tagged multi-select fragment. -/
def multiSelectFrag (v : String) : String :=
  "<span class=\"selected-value\">" ++ v ++ "</span>"

/-- Embeds the `multi_select` cell branch of `RenderCollectionView`
(lines 1256-1269): split the rendered raw value on commas, then iterate the
entries in reverse split order (`idx := len(vals)-1-i`), skipping entries
whose escaped form is empty and tagging the rest. -/
def multiSelectCell (colVal : String) : String :=
  let vals := goSplit ',' colVal
  String.join (vals.reverse.filterMap (fun x =>
    let v := EscapeHTML x
    if v = "" then none else some (multiSelectFrag v)))

/-- One table cell of a collection row (the inner column loop of
`RenderCollectionView`, lines 1243-1272). A column key missing from the
schema dereferences a nil `colInfo` in the source; the embedding substitutes
an empty `ColumnInfo` there (unreachable for well-formed views). -/
def renderCollectionCell (ctx : Ctx) (anc : List Block) (block : Block)
    (collection : Collection) (row : RowBlock) (st : St) (col : TableColumn) :
    St :=
  let colName := col.Property
  let v := (row.properties.lookup colName).getD .null
  let inlineContent := ctx.parseSpans v
  let (colVal, st) := getInlineContentSt ctx st inlineContent
  let colInfo := (collection.schemaGet colName).getD ⟨"", ""⟩
  let colVal :=
    if colInfo.typ = "title" then
      let uri := getTitleColDownloadedURL row block anc collection
      let colVal := if colVal = "" then "Untitled" else colVal
      "<a href=\"" ++ uri ++ "\">" ++ colVal ++ "</a>"
    else if colInfo.typ = "multi_select" then multiSelectCell colVal
    else colVal
  printf st ("<td class=\"cell-" ++ EscapeHTML colName ++ "\">" ++ colVal ++ "</td>")

/-- One body row of `RenderCollectionView` (lines 1240-1274). -/
def renderCollectionRow (ctx : Ctx) (anc : List Block) (block : Block)
    (collection : Collection) (columns : List TableColumn) (st : St)
    (row : RowBlock) : St :=
  let st := printf st ("<tr id=\"" ++ row.id ++ "\">")
  let st := columns.foldl (renderCollectionCell ctx anc block collection row) st
  printf st "</tr>\n"

/-- One header cell of `RenderCollectionView` (lines 1224-1233). -/
def renderCollectionHeaderCell (collection : Collection) (st : St)
    (col : TableColumn) : St :=
  let name :=
    match collection.schemaGet col.Property with
    | some colInfo => EscapeHTML colInfo.Name
    | none => ""
  printf st ("<th>" ++ name ++ "</th>")

/-- Embeds `RenderCollectionView` (lines 1195-1281). A block without
collection views, or whose first view has no format, only logs and emits
nothing. -/
def renderCollectionView (ctx : Ctx) (anc : List Block) (st : St)
    (block : Block) : St :=
  match block.collectionViews with
  | [] => st
  | viewInfo :: _ =>
    let view := viewInfo.CollectionView
    let collection := viewInfo.Collection
    if !view.hasFormat then st
    else
      let columns := view.TableProperties
      let st := printf st ("<div id=\"" ++ block.id ++ "\" class=\"collection-content\">")
      let st := printf st
        ("<h4 class=\"collection-title\">" ++ collection.name ++ "</h4>")
      let st := printf st "<table class=\"collection-content\">"
      let st := printf st "<thead>"
      let st := printf st "<tr>"
      let st := columns.foldl (renderCollectionHeaderCell collection) st
      let st := printf st "</tr>"
      let st := printf st "</thead>"
      let st := printf st "<tbody>"
      let st := viewInfo.CollectionRows.foldl
        (renderCollectionRow ctx anc block collection columns) st
      let st := printf st "</tbody>"
      let st := printf st "</table>"
      printf st "</div>"

/-- Embeds `needsIndent` (lines 1361-1371). -/
def needsIndent (block : Block) : Bool :=
  if block.content.length = 0 then false
  else block.typ = BlockText

/-! ## The recursive tree renderer (part_002 lines 704-741, 1283-1416) -/

/-- The ordinal computed at the top of `RenderNumberedList` (lines 705-711):
previous-sibling numbered-list blocks continue the counter, anything else
resets it to 1. -/
def numberedNo (st : St) : Int :=
  if isPrevBlockOfType st BlockNumberedList then st.listNo + 1 else 1

/-- The `<ol>` opening tag of `RenderNumberedList` (line 715), carrying the
emitted ordinal as its `start` attribute. -/
def olOpenTag (block : Block) (n : Int) : String :=
  "<ol id=\"" ++ block.id ++ "\" class=\""
    ++ cleanAttr (getBlockColorClass block ++ " numbered-list")
    ++ "\" start=\"" ++ toString n ++ "\">"

mutual

/-- Embeds `RenderBlock` (lines 1400-1416): consult the override hook (which
may have written output even when it reports unhandled), then dispatch. -/
def renderBlock (ctx : Ctx) (anc : List Block) (st : St) (b : Block) : St :=
  match ctx.renderBlockOverride with
  | some f =>
    let r := f b st
    if r.1 then r.2 else renderBlockDefault ctx anc r.2 b
  | none => renderBlockDefault ctx anc st b
termination_by (sizeOf b, 5)

/-- Embeds `DefaultRenderFunc` (lines 1283-1359) applied to the block: one
rule per type tag; `BlockFactory` and unknown tags render nothing (the
`maybePanic` diagnostic for unknown tags is outside the output). -/
def renderBlockDefault (ctx : Ctx) (anc : List Block) (st : St) (b : Block) :
    St :=
  if b.typ = BlockPage then renderPage ctx anc st b
  else if b.typ = BlockText then renderText ctx anc st b
  else if b.typ = BlockEquation then renderEquation ctx st b
  else if b.typ = BlockNumberedList then renderNumberedList ctx anc st b
  else if b.typ = BlockBulletedList then renderBulletedList ctx anc st b
  else if b.typ = BlockHeader then renderHeaderLevel ctx st b 1
  else if b.typ = BlockSubHeader then renderHeaderLevel ctx st b 2
  else if b.typ = BlockSubSubHeader then renderHeaderLevel ctx st b 3
  else if b.typ = BlockTodo then renderTodo ctx anc st b
  else if b.typ = BlockToggle then renderToggle ctx anc st b
  else if b.typ = BlockQuote then renderQuote ctx anc st b
  else if b.typ = BlockDivider then renderDivider st b
  else if b.typ = BlockCode then renderCode st b
  else if b.typ = BlockBookmark then renderBookmark ctx st b
  else if b.typ = BlockImage then renderImage ctx anc st b
  else if b.typ = BlockColumnList then renderColumnList ctx anc st b
  else if b.typ = BlockColumn then renderColumn ctx anc st b
  else if b.typ = BlockCollectionView then renderCollectionView ctx anc st b
  else if b.typ = BlockCollectionViewPage then renderCollectionViewPage ctx st b
  else if b.typ = BlockEmbed then renderEmbedBlock ctx anc st b
  else if b.typ = BlockGist then renderEmbedHelper ctx st b
  else if b.typ = BlockMaps then renderEmbedHelper ctx st b
  else if b.typ = BlockCodepen then renderEmbedHelper ctx st b
  else if b.typ = BlockTweet then renderEmbedHelper ctx st b
  else if b.typ = BlockVideo then renderAudioVideo ctx anc st b
  else if b.typ = BlockAudio then renderAudioVideo ctx anc st b
  else if b.typ = BlockFile then renderFile ctx anc st b
  else if b.typ = BlockDrive then renderDrive ctx st b
  else if b.typ = BlockFigma then renderFigma ctx st b
  else if b.typ = BlockPDF then renderPDF ctx anc st b
  else if b.typ = BlockCallout then renderCallout ctx st b
  else if b.typ = BlockTableOfContents then renderTableOfContents ctx st b
  else if b.typ = BlockBreadcrumb then renderBreadcrumb ctx st b
  else st
termination_by (sizeOf b, 4)

/-- Embeds `RenderPage` (lines 611-623); `renderSubPage` (606-609) delegates
to `renderLinkToPage`, so both non-root branches emit the link card. -/
def renderPage (ctx : Ctx) (anc : List Block) (st : St) (b : Block) : St :=
  if ctx.isRootBlock b then renderRootPage ctx anc st b
  else if ctx.isSubPage b then renderLinkToPage ctx anc st b
  else renderLinkToPage ctx anc st b
termination_by (sizeOf b, 3)

/-- Embeds `renderRootPage` (lines 570-604). -/
def renderRootPage (ctx : Ctx) (anc : List Block) (st : St) (b : Block) : St :=
  let st :=
    if ctx.fullHTML then
      let st := printf st "<html>"
      let st := printf st "<head>"
      let st := printf st
        "<meta http-equiv=\"Content-Type\" content=\"text/html; charset=utf-8\"/>"
      let st := printf st ("<title>" ++ EscapeHTML b.title ++ "</title>")
      let st := printf st ("<style>" ++ ctx.css ++ "\t\n</style>")
      let st := printf st "</head>"
      printf st "<body>"
    else st
  let clsFont :=
    match b.formatPage with
    | some fp => if fp.pageFont ≠ "" then fp.pageFont else "sans"
    | none => "sans"
  let st := printf st
    ("<article id=\"" ++ b.id ++ "\" class=\"page " ++ clsFont ++ "\">")
  let st := renderPageHeader ctx anc st b
  let st := printf st "<div class=\"page-body\">"
  let st := renderChildren ctx anc st b
  let st := printf st "</div>"
  let st := printf st "</article>"
  if ctx.fullHTML then printf st "</body></html>" else st
termination_by (sizeOf b, 2)

/-- Embeds `RenderText` (lines 633-640). -/
def renderText (ctx : Ctx) (anc : List Block) (st : St) (b : Block) : St :=
  let cls := getBlockColorClass b
  let st := printf st ("<p id=\"" ++ b.id ++ "\" class=\"" ++ cls ++ "\">")
  let st := renderInlines ctx st b.inline
  let st := renderChildren ctx anc st b
  printf st "</p>"
termination_by (sizeOf b, 2)

/-- Embeds `RenderNumberedList` (lines 704-725): continue or reset the
counter, then emit the `<ol>` with the counter as `start`. -/
def renderNumberedList (ctx : Ctx) (anc : List Block) (st : St) (b : Block) :
    St :=
  let n := numberedNo st
  let st := { st with listNo := n }
  let st := printf st (olOpenTag b n)
  let st := printf st "<li>"
  let st := renderInlines ctx st b.inline
  let st := renderChildren ctx anc st b
  let st := printf st "</li>"
  printf st "</ol>"
termination_by (sizeOf b, 2)

/-- Embeds `RenderBulletedList` (lines 727-741). -/
def renderBulletedList (ctx : Ctx) (anc : List Block) (st : St) (b : Block) :
    St :=
  let cls := cleanAttr (getBlockColorClass b ++ " bulleted-list")
  let st := printf st ("<ul id=\"" ++ b.id ++ "\" class=\"" ++ cls ++ "\">")
  let st := printf st "<li>"
  let st := renderInlines ctx st b.inline
  let st := renderChildren ctx anc st b
  let st := printf st "</li>"
  printf st "</ul>"
termination_by (sizeOf b, 2)

/-- Embeds `RenderTodo` (lines 770-795): the non-recursive opening is
`renderTodoOpen`, then children, then the closing tags. -/
def renderTodo (ctx : Ctx) (anc : List Block) (st : St) (b : Block) : St :=
  let st := renderTodoOpen ctx st b
  let st := renderChildren ctx anc st b
  let st := printf st "</li>"
  printf st "</ul>"
termination_by (sizeOf b, 2)

/-- Embeds `RenderToggle` (lines 797-817). -/
def renderToggle (ctx : Ctx) (anc : List Block) (st : St) (b : Block) : St :=
  let cls := cleanAttr (getBlockColorClass b ++ " toggle")
  let st := printf st ("<ul id=\"" ++ b.id ++ "\" class=\"" ++ cls ++ "\">")
  let st := printf st "<li>"
  let st := printf st "<details open=\"\">"
  let st := printf st "<summary>"
  let st := renderInlines ctx st b.inline
  let st := printf st "</summary>"
  let st := renderChildren ctx anc st b
  let st := printf st "</details>"
  let st := printf st "</li>"
  printf st "</ul>"
termination_by (sizeOf b, 2)

/-- Embeds `RenderQuote` (lines 819-828). -/
def renderQuote (ctx : Ctx) (anc : List Block) (st : St) (b : Block) : St :=
  let st := printf st ("<blockquote id=\"" ++ b.id ++ "\" class=\"\">")
  let st := renderInlines ctx st b.inline
  let st := renderChildren ctx anc st b
  printf st "</blockquote>"
termination_by (sizeOf b, 2)

/-- Embeds `RenderColumnList` (lines 1155-1166). -/
def renderColumnList (ctx : Ctx) (anc : List Block) (st : St) (b : Block) :
    St :=
  if b.content.length = 0 then st
  else
    let st := printf st ("<div id=\"" ++ b.id ++ "\" class=\"column-list\">")
    let st := renderChildren ctx anc st b
    printf st "</div>"
termination_by (sizeOf b, 2)

/-- Embeds `RenderColumn` (lines 1168-1179); the column ratio is the
pre-rendered percentage with default "50". -/
def renderColumn (ctx : Ctx) (anc : List Block) (st : St) (b : Block) : St :=
  let colRatioStr := b.columnRatioStr.getD "50"
  let st := printf st
    ("<div id=\"" ++ b.id ++ "\" style=\"width:" ++ colRatioStr
      ++ "%\" class=\"column\">")
  let st := renderChildren ctx anc st b
  printf st "</div>"
termination_by (sizeOf b, 2)

/-- Embeds `RenderChildren` (lines 1373-1398): save the active sibling
sequence and index, render each child in document order against the child
list, then restore the saved sibling state. The source sets `child.Parent`
as it iterates; the embedding extends the ancestor chain instead. -/
def renderChildren (ctx : Ctx) (anc : List Block) (st : St) (b : Block) : St :=
  if b.content.length = 0 then st
  else
    let doIndent := needsIndent b
    let st := if doIndent then printf st "<div class=\"indented\">" else st
    let currIdx := st.currBlockIdx
    let currBlocks := st.currBlocks
    let st := { st with currBlocks := b.content }
    let st := renderList ctx (b :: anc) st b.content 0
    let st := { st with currBlockIdx := currIdx, currBlocks := currBlocks }
    if doIndent then printf st "</div>" else st
termination_by (sizeOf b, 1)
decreasing_by
  all_goals simp_wf
  all_goals cases b
  all_goals simp
  all_goals omega

/-- The indexed child loop of `RenderChildren` (lines 1387-1391). -/
def renderList (ctx : Ctx) (anc : List Block) (st : St) (bs : List Block)
    (i : Nat) : St :=
  match bs with
  | [] => st
  | child :: rest =>
    let st := renderBlock ctx anc { st with currBlockIdx := i } child
    renderList ctx anc st rest (i + 1)
termination_by (sizeOf bs, 0)

end

/-! ## ToHTML (part_002 lines 1418-1460) -/

/-- Embeds `detectKatex` (lines 1418-1434): accept a configured path that
exists; otherwise try `exec.LookPath("katex")` (the `lookPath` oracle),
recording the found path; fail with a configuration error naming the bad
configured path when one was set. -/
def detectKatex (ctx : Ctx) : Except String Ctx :=
  if ctx.katexPath ≠ "" && ctx.statOk ctx.katexPath then .ok ctx
  else
    match ctx.lookPath with
    | some path => .ok { ctx with katexPath := path }
    | none =>
      if ctx.katexPath ≠ "" then
        .error "UseKatexToRenderEquation is set but KatexPath does not exist"
      else
        .error "UseKatexToRenderEquation is set but could not locate katex binary"

/-- The fresh converter state at the top of `ToHTML`: zero-valued fields with
the initial (nil) buffer. -/
def initSt : St :=
  { buf := "", bufs := [], listNo := 0, currBlocks := [], currBlockIdx := 0,
    didImportKatexCSS := false }

/-- Embeds `ToHTML` (lines 1436-1451): compatibility mode forces equation
typesetting on; when typesetting is on, `detectKatex` must succeed before
any rendering happens; then the root block renders into a fresh buffer. -/
def toHTML (ctx : Ctx) : Except String String :=
  let ctx := if ctx.notionCompat then { ctx with useKatex := true } else ctx
  if ctx.useKatex then
    match detectKatex ctx with
    | .error e => .error e
    | .ok ctx =>
      .ok (popBuffer (renderBlock ctx [] (pushNewBuffer initSt) ctx.pageRoot)).1
  else
    .ok (popBuffer (renderBlock ctx [] (pushNewBuffer initSt) ctx.pageRoot)).1

/-! ## Utility lemmas -/

theorem escapeChar_data_ne_nil (c : Char) : (escapeChar c).data ≠ [] := by
  unfold escapeChar
  split_ifs <;> simp [String.singleton]

theorem EscapeHTML_eq_empty_iff (s : String) : EscapeHTML s = "" ↔ s = "" := by
  constructor
  · intro h
    unfold EscapeHTML at h
    rw [String.join_eq] at h
    have hd := congrArg String.data h
    simp only [List.map_map] at hd
    rcases hs : s.toList with _ | ⟨c, rest⟩
    · exact String.ext (by simpa [String.toList] using hs)
    · exfalso
      rw [hs] at hd
      simp only [List.map_cons, List.flatten_cons] at hd
      have h2 : (escapeChar c).data = [] ∧ ∀ a ∈ rest, (escapeChar a).data = [] := by
        simpa using hd
      exact escapeChar_data_ne_nil c h2.1
  · rintro rfl; rfl

theorem multiSelect_filterMap_eq (l : List String) :
    l.filterMap (fun x =>
      let v := EscapeHTML x
      if v = "" then none else some (multiSelectFrag v)) =
    (l.filter (fun v => v ≠ "")).map (fun v => multiSelectFrag (EscapeHTML v)) := by
  induction l with
  | nil => rfl
  | cons x rest ih =>
    by_cases hx : x = ""
    · subst hx
      simpa using ih
    · have hne : ¬(EscapeHTML x = "") := fun h => hx ((EscapeHTML_eq_empty_iff x).mp h)
      simp [List.filterMap_cons, List.filter_cons, hx, hne, ih]

/-- Claim C5 (confirmed): for every multi_select collection cell, the output
is one `<span class="selected-value">` fragment per non-empty comma-split
entry of the rendered raw value, emitted in reverse split order, with empty
entries dropped; in particular the raw value "A,B,C" yields fragments in
order C, B, A. -/
theorem c5_multi_select_reverse_order :
    (∀ colVal : String,
      multiSelectCell colVal =
        String.join ((((goSplit ',' colVal).reverse).filter (fun v => v ≠ "")).map
          (fun v => "<span class=\"selected-value\">" ++ EscapeHTML v ++ "</span>")))
  ∧ multiSelectCell "A,B,C" =
      "<span class=\"selected-value\">C</span><span class=\"selected-value\">B</span><span class=\"selected-value\">A</span>" := by
  constructor
  · intro colVal
    simp only [multiSelectCell, multiSelect_filterMap_eq]
    rfl
  · rfl

theorem parseInlineBlocksGo_length (vs : List JVal) :
    ∀ (acc l : List InlineBlock), parseInlineBlocksGo vs acc = .ok l →
      l.length = acc.length + vs.length := by
  induction vs with
  | nil =>
    intro acc l h
    simp only [parseInlineBlocksGo] at h
    cases h
    simp
  | cons v rest ih =>
    intro acc l h
    simp only [parseInlineBlocksGo] at h
    split at h
    · split at h
      · have := ih _ l h
        simp at this
        simp
        omega
      · exact PResult.noConfusion h
      · exact PResult.noConfusion h
    · exact PResult.noConfusion h

/-- Claim C10 (confirmed): an inline-token value that is an empty array is a
decode error, and the parser never succeeds with an empty span sequence. -/
theorem c10_no_empty_success :
    parseInlineBlocks (JVal.arr []) = PResult.err "raw is empty"
  ∧ ∀ (raw : JVal) (l : List InlineBlock),
      parseInlineBlocks raw = .ok l → l ≠ [] := by
  constructor
  · rfl
  · intro raw l h
    match raw with
    | .arr a =>
      simp only [parseInlineBlocks] at h
      by_cases ha : a.length = 0
      · rw [if_pos ha] at h; cases h
      · rw [if_neg ha] at h
        have := parseInlineBlocksGo_length a [] l h
        simp at this
        intro hl
        rw [hl] at this
        simp at this
        omega
    | .str s => cases h
    | .num n => cases h
    | .bool b => cases h
    | .null => cases h
    | .obj f => cases h

/-- Witness for C10: a concrete one-element token array parses to a
one-span (hence non-empty) result. -/
theorem c10_no_empty_success_witness :
    ([InlineBlock.plain "t"] : List InlineBlock) ≠ [] :=
  c10_no_empty_success.2 (JVal.arr [JVal.arr [JVal.str "t"]])
    [InlineBlock.plain "t"] rfl

/-- Counterexample to claim C6: the span `["t", [["d", "x"]]]` carries a `d`
attribute whose payload is a string instead of an object; parsing it panics
(the unchecked type assertion `a[1].(map[string]interface{})` in
`parseAttribute`) instead of returning a decode error, so the claim's "the
`d` date payload mismatch returns a decode error, never failing by panic"
is false on the code. -/
theorem c6_counterexample :
    (parseInlineBlocks
      (JVal.arr [JVal.arr [JVal.str "t",
        JVal.arr [JVal.arr [JVal.str "d", JVal.str "x"]]]])).isPanic = true
  ∧ (parseInlineBlocks
      (JVal.arr [JVal.arr [JVal.str "t",
        JVal.arr [JVal.arr [JVal.str "d", JVal.str "x"]]]])).isDecodeErr = false := by
  exact ⟨rfl, rfl⟩

/-- Claim C6 as amended: every listed malformed inline-token input produces
a decode error returned to the caller — outer structure not an array; a span
element of length other than 1 or 2; a span whose first element is not text;
an attribute tuple that is empty, longer than 2, or with an unrecognized
code; an `a`/`u`/`m` payload that is not a string — EXCEPT a `d` attribute
whose payload is not an object, which fails by panic (an unchecked type
assertion), not by a decode error. -/
theorem c6_amended_decode_errors :
    (∀ v : JVal, v.isArr = false → (parseInlineBlocks v).isDecodeErr = true)
  ∧ (∀ a : List JVal, a.length = 0 ∨ a.length > 2 →
      (parseInlineBlock a).isDecodeErr = true)
  ∧ (∀ (v : JVal) (rest : List JVal), v.isStr = false →
      (parseInlineBlock (v :: rest)).isDecodeErr = true)
  ∧ (∀ b : InlineBlock, (parseAttribute b []).isDecodeErr = true)
  ∧ (∀ (b : InlineBlock) (a : List JVal), a.length > 2 →
      (parseAttribute b a).isDecodeErr = true)
  ∧ (∀ (b : InlineBlock) (s : String),
      s ∉ (["b", "i", "s", "c", "a", "u", "m", "d"] : List String) →
      (parseAttribute b [JVal.str s]).isDecodeErr = true)
  ∧ (∀ (b : InlineBlock) (s : String) (v : JVal),
      s ∉ (["b", "i", "s", "c", "a", "u", "m", "d"] : List String) →
      (parseAttribute b [JVal.str s, v]).isDecodeErr = true)
  ∧ (∀ (b : InlineBlock) (s : String) (v : JVal),
      s = "a" ∨ s = "u" ∨ s = "m" → v.isStr = false →
      (parseAttribute b [JVal.str s, v]).isDecodeErr = true)
  ∧ (∀ (b : InlineBlock) (v : JVal), v.isObj = false →
      (parseAttribute b [JVal.str "d", v]).isPanic = true) := by
  refine ⟨?_, ?_, ?_, ?_, ?_, ?_, ?_, ?_, ?_⟩
  · intro v hv
    cases v <;> simp_all [parseInlineBlocks, PResult.isDecodeErr, JVal.isArr]
  · intro a ha
    match a with
    | [] => rfl
    | [x] => simp at ha
    | [x, y] => simp at ha
    | x :: y :: z :: rest => rfl
  · intro v rest hv
    match rest with
    | [] => cases v <;> simp_all [parseInlineBlock, PResult.isDecodeErr, JVal.isStr]
    | [y] => cases v <;> simp_all [parseInlineBlock, PResult.isDecodeErr, JVal.isStr]
    | y :: z :: more => rfl
  · intro b; rfl
  · intro b a ha
    match a with
    | [] => simp at ha
    | [x] => simp at ha
    | [x, y] => simp at ha
    | x :: y :: z :: rest =>
      cases x <;>
        simp [parseAttribute, PResult.isDecodeErr, List.length]
  · intro b s hs
    simp only [List.mem_cons, List.mem_singleton] at hs
    push_neg at hs
    obtain ⟨h1, h2, h3, h4, -⟩ := hs
    simp [parseAttribute, h1, h2, h3, h4, PResult.isDecodeErr]
  · intro b s v hs
    simp only [List.mem_cons, List.mem_singleton] at hs
    push_neg at hs
    obtain ⟨-, -, -, -, h5, h6, h7, h8⟩ := hs
    simp [parseAttribute, h5, h6, h7, h8, PResult.isDecodeErr]
  · intro b s v hs hv
    rcases hs with rfl | rfl | rfl <;>
      cases v <;> simp_all [parseAttribute, PResult.isDecodeErr, JVal.isStr]
  · intro b v hv
    cases v <;> simp_all [parseAttribute, PResult.isPanic, JVal.isObj]

/-- Witness for the amended C6: a non-array input, an unknown one-element
attribute code and a mistyped `a` payload all yield decode errors, while a
mistyped `d` payload panics, at concrete inputs. -/
theorem c6_amended_decode_errors_witness :
    (parseInlineBlocks (JVal.str "nope")).isDecodeErr = true
  ∧ (parseAttribute (InlineBlock.plain "t") [JVal.str "x"]).isDecodeErr = true
  ∧ (parseAttribute (InlineBlock.plain "t")
      [JVal.str "a", JVal.num 3]).isDecodeErr = true
  ∧ (parseAttribute (InlineBlock.plain "t")
      [JVal.str "d", JVal.str "x"]).isPanic = true :=
  ⟨c6_amended_decode_errors.1 (JVal.str "nope") rfl,
   c6_amended_decode_errors.2.2.2.2.2.1 (InlineBlock.plain "t") "x" (by decide),
   c6_amended_decode_errors.2.2.2.2.2.2.2.1 (InlineBlock.plain "t") "a"
     (JVal.num 3) (Or.inl rfl) rfl,
   c6_amended_decode_errors.2.2.2.2.2.2.2.2 (InlineBlock.plain "t")
     (JVal.str "x") rfl⟩

/-! ## Attribute nesting (claims C1 and C2) -/

/-- The attributes that `RenderInline` wraps as matched open/close tag pairs
around the span text (the payload-free flags, highlight, and link). -/
def isPairAttr : Attr → Bool
  | .bold => true
  | .italic => true
  | .strikeThrought => true
  | .code => true
  | .highlight _ => true
  | .link _ => true
  | _ => false

/-- The opening tag `RenderInline` appends to `start` for a pair attribute. -/
def pairOpen (ctx : Ctx) : Attr → String
  | .bold => "<strong>"
  | .italic => "<em>"
  | .strikeThrought => "<del>"
  | .code => "<code>"
  | .highlight hl => "<mark class=\"highlight-" ++ hl ++ "\">"
  | .link u =>
    let uri := applyRewrite ctx u
    if uri = "" then "<a>" else "<a href=\"" ++ EscapeHTML uri ++ "\">"
  | _ => ""

/-- The closing tag `RenderInline` prepends to `close` for a pair attribute. -/
def pairClose : Attr → String
  | .bold => "</strong>"
  | .italic => "</em>"
  | .strikeThrought => "</del>"
  | .code => "</code>"
  | .highlight _ => "</mark>"
  | .link _ => "</a>"
  | _ => ""

theorem joinNil : String.join ([] : List String) = "" := rfl

theorem joinCons (a : String) (l : List String) :
    String.join (a :: l) = a ++ String.join l := by
  apply String.ext
  simp [String.join_eq]

theorem joinAppend (l1 l2 : List String) :
    String.join (l1 ++ l2) = String.join l1 ++ String.join l2 := by
  apply String.ext
  simp [String.join_eq]

theorem renderInlineStep_pair (ctx : Ctx) (acc : String × String × String)
    (a : Attr) (h : isPairAttr a = true) :
    renderInlineStep ctx acc a =
      (acc.1 ++ pairOpen ctx a, pairClose a ++ acc.2.1, acc.2.2) := by
  obtain ⟨s, c, t⟩ := acc
  cases a <;>
    simp_all [renderInlineStep, isPairAttr, pairOpen, pairClose,
      String.append_assoc] <;>
    (split <;> simp [String.append_assoc])

theorem renderInline_foldl_pair (ctx : Ctx) :
    ∀ (l : List Attr) (s c t : String), (∀ a ∈ l, isPairAttr a = true) →
      l.foldl (renderInlineStep ctx) (s, c, t) =
        (s ++ String.join (l.map (pairOpen ctx)),
         String.join (l.reverse.map pairClose) ++ c, t) := by
  intro l
  induction l with
  | nil => intro s c t _; simp [joinNil]
  | cons a rest ih =>
    intro s c t h
    have ha := h a (List.mem_cons_self a rest)
    have hrest : ∀ x ∈ rest, isPairAttr x = true :=
      fun x hx => h x (List.mem_cons_of_mem a hx)
    rw [List.foldl_cons, renderInlineStep_pair ctx _ a ha, ih _ _ _ hrest]
    simp [joinCons, joinAppend, joinNil, String.append_assoc]

/-- Modelled from the spec (the wording of claim C1): markup in which the
LAST-declared attribute wraps tightest — openers in declaration order,
closers in reverse declaration order. `RenderInline` is compared against
this rendering. -/
def specLastDeclInnermost (ctx : Ctx) (b : TextSpan) : String :=
  String.join (b.Attrs.map (pairOpen ctx)) ++ EscapeHTML b.Text
    ++ String.join (b.Attrs.reverse.map pairClose)

/-- A concrete converter context with default configuration, no hooks, and
trivially-resolving environment oracles, for concrete evaluations. -/
def ctx0 : Ctx :=
  { notionCompat := false, useKatex := false, katexPath := "",
    addHeaderAnchor := false, fullHTML := false, rewriteURL := none,
    renderBlockOverride := none, pageRoot := blockStub, pageID := "",
    statOk := fun _ => false, lookPath := none,
    katexRun := fun _ _ => .error "exit status 1",
    blockTitleByID := fun _ => none, resolveUser := fun _ => "",
    formatDateRaw := fun _ => "", toNoDashID := fun s => s,
    collectionByID := fun _ => { name := "", Icon := "", CollectionSchema := [] },
    isRootBlock := fun _ => true, isSubPage := fun _ => false,
    parseSpans := fun _ => [], css := "" }

/-- Counterexample to claim C1: for the span "t" with declared attributes
[bold, italic], `RenderInline` emits `<em><strong>t</strong></em>` — the
FIRST-declared attribute (bold) is innermost — which differs from the
claim's last-declared-innermost rendering `<strong><em>t</em></strong>`. -/
theorem c1_counterexample :
    renderInlineStr ctx0 ⟨"t", [Attr.bold, Attr.italic]⟩ =
      "<em><strong>t</strong></em>"
  ∧ specLastDeclInnermost ctx0 ⟨"t", [Attr.bold, Attr.italic]⟩ =
      "<strong><em>t</em></strong>"
  ∧ renderInlineStr ctx0 ⟨"t", [Attr.bold, Attr.italic]⟩ ≠
      specLastDeclInnermost ctx0 ⟨"t", [Attr.bold, Attr.italic]⟩ := by
  refine ⟨rfl, rfl, ?_⟩
  decide

/-- Claim C1 as amended: for every span all of whose attributes render as
matched tag pairs, `RenderInline` applies the attributes OUTERMOST-first in
declaration order: opening tags appear in reverse declaration order, closing
tags in declaration order, so the FIRST-declared attribute produces the
innermost markup pair and the last-declared one wraps outermost. -/
theorem c1_amended_first_declared_innermost (ctx : Ctx) (t : String)
    (attrs : List Attr) (h : ∀ a ∈ attrs, isPairAttr a = true) :
    renderInlineStr ctx ⟨t, attrs⟩ =
      String.join (attrs.reverse.map (pairOpen ctx)) ++ EscapeHTML t
        ++ String.join (attrs.map pairClose) := by
  unfold renderInlineStr
  rw [renderInline_foldl_pair ctx attrs.reverse "" "" t
    (fun a ha => h a (List.mem_reverse.mp ha))]
  simp [String.append_assoc]

/-- Witness for the amended C1 at the counterexample's input: bold then
italic renders with bold (first-declared) innermost. -/
theorem c1_amended_first_declared_innermost_witness :
    renderInlineStr ctx0 ⟨"t", [Attr.bold, Attr.italic]⟩ =
      String.join (([Attr.bold, Attr.italic].reverse).map (pairOpen ctx0))
        ++ EscapeHTML "t"
        ++ String.join ([Attr.bold, Attr.italic].map pairClose) :=
  c1_amended_first_declared_innermost ctx0 "t" [Attr.bold, Attr.italic]
    (by decide)

/-- Claim C2 (confirmed): a span with declared attributes [bold, link]
renders with the anchor outermost and the strong element innermost, the href
being the possibly URL-rewritten, HTML-escaped link payload. -/
theorem c2_bold_link_nesting (ctx : Ctx) (t u : String)
    (h : applyRewrite ctx u ≠ "") :
    renderInlineStr ctx ⟨t, [Attr.bold, Attr.link u]⟩ =
      "<a href=\"" ++ EscapeHTML (applyRewrite ctx u) ++ "\"><strong>"
        ++ EscapeHTML t ++ "</strong></a>" := by
  have : renderInlineStr ctx ⟨t, [Attr.bold, Attr.link u]⟩ =
      String.join (([Attr.bold, Attr.link u]).reverse.map (pairOpen ctx))
        ++ EscapeHTML t
        ++ String.join (([Attr.bold, Attr.link u]).map pairClose) := by
    unfold renderInlineStr
    rw [renderInline_foldl_pair ctx ([Attr.bold, Attr.link u]).reverse "" "" t
      (by intro a ha; have hm := List.mem_reverse.mp ha; fin_cases hm <;> rfl)]
    simp [String.append_assoc]
  rw [this]
  simp [pairOpen, pairClose, h, joinCons, joinNil, String.append_assoc]

/-- Witness for C2: concrete text and link with no URL rewriting. -/
theorem c2_bold_link_nesting_witness :
    renderInlineStr ctx0 ⟨"text", [Attr.bold, Attr.link "u1"]⟩ =
      "<a href=\"" ++ EscapeHTML (applyRewrite ctx0 "u1") ++ "\"><strong>"
        ++ EscapeHTML "text" ++ "</strong></a>" :=
  c2_bold_link_nesting ctx0 "text" "u1" (by decide)

/-- Claim C9 (confirmed): for every converter state, context (hooks
included) and block, `RenderChildren` leaves the active sibling state
unchanged — the sibling sequence and the current sibling index have the same
values after the call as before it. The children are visited in document
order by the definition's fold over `block.Content` with increasing index. -/
theorem c9_render_children_frame (ctx : Ctx) (anc : List Block) (st : St)
    (b : Block) :
    (renderChildren ctx anc st b).currBlocks = st.currBlocks
  ∧ (renderChildren ctx anc st b).currBlockIdx = st.currBlockIdx := by
  rw [renderChildren]
  split
  · exact ⟨rfl, rfl⟩
  · simp only []
    split <;> simp [printf] <;> split <;> simp [printf]

/-! ## Equation typesetting (claims C7 and C8) -/

theorem renderInlines_useKatex_irrelevant (ctx : Ctx) (st : St)
    (l : List TextSpan) :
    renderInlines { ctx with useKatex := false } st l = renderInlines ctx st l := rfl

/-- Claim C7 (confirmed): when equation typesetting is enabled but the
external typesetting step fails, `RenderEquation` emits exactly what it
emits with typesetting disabled (the raw inline rendering of the block), and
conversion as a whole still succeeds — `ToHTML` only fails through
`detectKatex`, so with a resolvable binary the result is `.ok` no matter
what the external tool returns. -/
theorem c7_equation_external_failure_fallback :
    (∀ (ctx : Ctx) (st : St) (b : Block) (e : String),
        ctx.useKatex = true →
        ctx.katexRun ctx.katexPath (textSpansToString b.inline) = .error e →
        renderEquation ctx st b = renderEquation { ctx with useKatex := false } st b)
  ∧ (∀ ctx : Ctx, ctx.useKatex = true → ctx.katexPath ≠ "" →
        ctx.statOk ctx.katexPath = true → ∃ out, toHTML ctx = .ok out) := by
  constructor
  · intro ctx st b e hk hf
    simp only [renderEquation, hk, hf, Bool.not_true, Bool.not_false,
      if_neg, if_pos]
    rfl
  · intro ctx hk hne hstat
    cases hc : ctx.notionCompat
    · simp [toHTML, detectKatex, hc, hk, hne, hstat]
    · simp [toHTML, detectKatex, hc, hne, hstat]

/-- A concrete one-equation block. -/
def equationBlock : Block :=
  { blockStub with
    typ := BlockEquation,
    id := "e1",
    inline := [⟨"x+1", []⟩] }

/-- A context whose katex binary resolves but whose external typesetting
invocation always fails, over a one-equation page. -/
def ctxKatexFails : Ctx :=
  { ctx0 with
    useKatex := true,
    katexPath := "katex",
    statOk := fun _ => true,
    pageRoot := equationBlock }

/-- Witness for C7: with `ctxKatexFails` the fallback for a concrete
equation block equals the disabled-typesetting rendering, and the whole
conversion of the page rooted at that block succeeds. -/
theorem c7_equation_external_failure_fallback_witness :
    (renderEquation ctxKatexFails initSt ctxKatexFails.pageRoot =
      renderEquation { ctxKatexFails with useKatex := false } initSt
        ctxKatexFails.pageRoot)
  ∧ ∃ out, toHTML ctxKatexFails = .ok out :=
  ⟨c7_equation_external_failure_fallback.1 _ initSt _ "exit status 1" rfl rfl,
   c7_equation_external_failure_fallback.2 _ rfl (by decide) rfl⟩

theorem detectKatex_error (c : Ctx)
    (hpath : c.katexPath = "" ∨ c.statOk c.katexPath = false)
    (hlook : c.lookPath = none) : ∃ e, detectKatex c = .error e := by
  unfold detectKatex
  rcases hpath with hp | hp
  · simp [hp, hlook]
  · simp [hp, hlook]
    split <;> exact ⟨_, rfl⟩

/-- Claim C8 (confirmed): when equation typesetting is requested (directly
or forced by compatibility mode) and the binary resolves neither at the
configured path nor by lookup, `ToHTML` returns a configuration error (so no
output bytes are produced and nothing renders); when typesetting is not
requested, conversion succeeds regardless of binary availability. -/
theorem c8_katex_configuration (ctx : Ctx) :
    ((ctx.useKatex = true ∨ ctx.notionCompat = true) →
      (ctx.katexPath = "" ∨ ctx.statOk ctx.katexPath = false) →
      ctx.lookPath = none →
      ∃ e, toHTML ctx = .error e)
  ∧ (ctx.useKatex = false → ctx.notionCompat = false →
      ∃ out, toHTML ctx = .ok out) := by
  constructor
  · intro hk hpath hlook
    cases hc : ctx.notionCompat
    · have hu : ctx.useKatex = true := by
        rcases hk with h | h
        · exact h
        · rw [hc] at h; cases h
      obtain ⟨e, he⟩ := detectKatex_error ctx hpath hlook
      exact ⟨e, by simp [toHTML, hc, hu, he]⟩
    · obtain ⟨e, he⟩ := detectKatex_error { ctx with useKatex := true } hpath hlook
      rw [show ctx = { ctx with notionCompat := true } from by
        cases ctx; simp_all] at he
      exact ⟨e, by simp [toHTML, hc, he]⟩
  · intro hu hc
    have : toHTML ctx =
        .ok (popBuffer (renderBlock ctx [] (pushNewBuffer initSt) ctx.pageRoot)).1 := by
      simp [toHTML, hc, hu]
    exact ⟨_, this⟩

/-- Witness for C8: with typesetting requested, a missing configured path
and no lookup result, conversion errors; with typesetting not requested (on
the same environment) it succeeds. -/
theorem c8_katex_configuration_witness :
    (∃ e, toHTML { ctx0 with useKatex := true } = .error e)
  ∧ ∃ out, toHTML ctx0 = .ok out :=
  ⟨(c8_katex_configuration { ctx0 with useKatex := true }).1 (Or.inl rfl)
      (Or.inl rfl) rfl,
   (c8_katex_configuration ctx0).2 rfl rfl⟩

/-! ## Table-of-contents indentation (claim C4) -/

theorem renderInlines_eq (ctx : Ctx) :
    ∀ (l : List TextSpan) (st : St),
      renderInlines ctx st l =
        { st with buf := st.buf ++ String.join (l.map (renderInlineStr ctx)) } := by
  intro l
  induction l with
  | nil =>
    intro st
    cases st
    simp [renderInlines, joinNil]
  | cons sp rest ih =>
    intro st
    show renderInlines ctx (printf st (renderInlineStr ctx sp)) rest = _
    rw [ih]
    cases st
    simp [printf, joinCons, String.append_assoc]

theorem getInlineContentSt_eq (ctx : Ctx) (st : St) (l : List TextSpan) :
    getInlineContentSt ctx st l = (getInlineContent ctx l, st) := by
  unfold getInlineContentSt getInlineContent
  by_cases h : l.isEmpty
  · simp [h]
  · rw [if_neg h, if_neg h, renderInlines_eq]
    cases st
    simp [pushNewBuffer, popBuffer]

/-- The string the table-of-contents loop appends: one `tocEntryStr` per
remaining heading, with the running indent. -/
def tocStrGo (ctx : Ctx) (blocks : List Block) : Nat → Int → Nat → String
  | _, _, 0 => ""
  | i, indent, n + 1 =>
    let b := blocks.getD i blockStub
    let ind := indent + adjustIndent blocks i
    tocEntryStr ctx b ind ++ tocStrGo ctx blocks (i + 1) ind n

theorem tocEmitGo_eq (ctx : Ctx) (blocks : List Block) :
    ∀ (n i : Nat) (indent : Int) (st : St),
      tocEmitGo ctx blocks i indent n st =
        { st with buf := st.buf ++ tocStrGo ctx blocks i indent n } := by
  intro n
  induction n with
  | zero =>
    intro i indent st
    cases st
    simp [tocEmitGo, tocStrGo]
  | succ n ih =>
    intro i indent st
    simp only [tocEmitGo, tocStrGo, getInlineContentSt_eq]
    rw [ih]
    cases st
    simp only [printf, tocEntryStr, St.mk.injEq, String.append_assoc]

theorem renderTableOfContents_eq (ctx : Ctx) (st : St) (block : Block) :
    renderTableOfContents ctx st block =
      { st with buf := st.buf ++
          ("<nav id=\"" ++ block.id ++ "\" class=\""
            ++ cleanAttr (getBlockColorClass block ++ " table_of_contents")
            ++ "\">"
            ++ tocStrGo ctx (getHeaderBlocks ctx.pageRoot.content) 0 0
                (getHeaderBlocks ctx.pageRoot.content).length
            ++ "</nav>") } := by
  simp only [renderTableOfContents, tocEmitGo_eq, printf]
  cases st
  simp [String.append_assoc]

/-- A heading block with a given id and heading type, for concrete pages. -/
def hdr (i : String) (t : String) : Block :=
  { blockStub with id := i, typ := t }

/-- A concrete page whose headings are H1, H2, H3, H2, H1 in document
order. -/
def tocPage : Block :=
  { blockStub with
    typ := BlockPage,
    id := "pg",
    content := [hdr "h1" BlockHeader, hdr "h2" BlockSubHeader,
      hdr "h3" BlockSubSubHeader, hdr "h4" BlockSubHeader,
      hdr "h5" BlockHeader] }

def ctxToc : Ctx :=
  { ctx0 with pageRoot := tocPage }

def tocBlock : Block :=
  { blockStub with typ := BlockTableOfContents, id := "toc" }

theorem tocPage_headerBlocks :
    getHeaderBlocks ctxToc.pageRoot.content =
      [hdr "h1" BlockHeader, hdr "h2" BlockSubHeader,
       hdr "h3" BlockSubSubHeader, hdr "h4" BlockSubHeader,
       hdr "h5" BlockHeader] := by
  simp [ctxToc, tocPage, getHeaderBlocks, isHeaderBlock, hdr, blockStub,
    BlockHeader, BlockSubHeader, BlockSubSubHeader]

set_option maxRecDepth 100000 in
/-- Counterexample to claim C4: on the heading sequence [H1,H2,H3,H2,H1]
the code's running indents are [0,1,2,1,0] (the H2 to H3 step is a rank
increase, delta +1), not the claimed [0,1,1,0,-1]; the rendered output shows
the five entries at indents 0,1,2,1,0. -/
theorem c4_counterexample :
    tocIndents (getHeaderBlocks ctxToc.pageRoot.content) = [0, 1, 2, 1, 0]
  ∧ ([0, 1, 2, 1, 0] : List Int) ≠ [0, 1, 1, 0, -1]
  ∧ (renderTableOfContents ctxToc initSt tocBlock).buf =
      "<nav id=\"toc\" class=\"table_of_contents\">"
        ++ "<div class=\"table_of_contents-item table_of_contents-indent-0\"><a class=\"table_of_contents-link\" href=\"#h1\"></a></div>"
        ++ "<div class=\"table_of_contents-item table_of_contents-indent-1\"><a class=\"table_of_contents-link\" href=\"#h2\"></a></div>"
        ++ "<div class=\"table_of_contents-item table_of_contents-indent-2\"><a class=\"table_of_contents-link\" href=\"#h3\"></a></div>"
        ++ "<div class=\"table_of_contents-item table_of_contents-indent-1\"><a class=\"table_of_contents-link\" href=\"#h4\"></a></div>"
        ++ "<div class=\"table_of_contents-item table_of_contents-indent-0\"><a class=\"table_of_contents-link\" href=\"#h5\"></a></div>"
        ++ "</nav>"
  ∧ (renderTableOfContents ctxToc initSt tocBlock).buf ≠
      "<nav id=\"toc\" class=\"table_of_contents\">"
        ++ "<div class=\"table_of_contents-item table_of_contents-indent-0\"><a class=\"table_of_contents-link\" href=\"#h1\"></a></div>"
        ++ "<div class=\"table_of_contents-item table_of_contents-indent-1\"><a class=\"table_of_contents-link\" href=\"#h2\"></a></div>"
        ++ "<div class=\"table_of_contents-item table_of_contents-indent-1\"><a class=\"table_of_contents-link\" href=\"#h3\"></a></div>"
        ++ "<div class=\"table_of_contents-item table_of_contents-indent-0\"><a class=\"table_of_contents-link\" href=\"#h4\"></a></div>"
        ++ "<div class=\"table_of_contents-item table_of_contents-indent--1\"><a class=\"table_of_contents-link\" href=\"#h5\"></a></div>"
        ++ "</nav>" := by
  have hb := renderTableOfContents_eq ctxToc initSt tocBlock
  rw [tocPage_headerBlocks] at hb
  refine ⟨?_, by decide, ?_, ?_⟩
  · rw [tocPage_headerBlocks]
    decide
  · rw [hb]
    rfl
  · rw [hb]
    decide

/-- Claim C4 as amended: for a page whose heading blocks in document order
have ranks [H1, H2, H3, H2, H1], the table-of-contents renderer emits the
five entries with indent levels [0, 1, 2, 1, 0] — the running sum of local
deltas starting at 0, where a rank increase from the previous heading gives
+1, a decrease gives -1 and equal ranks give 0. -/
theorem c4_amended_toc_indents (ctx : Ctx) (st : St) (block : Block)
    (b1 b2 b3 b4 b5 : Block)
    (hh : getHeaderBlocks ctx.pageRoot.content = [b1, b2, b3, b4, b5])
    (h1 : b1.typ = BlockHeader) (h2 : b2.typ = BlockSubHeader)
    (h3 : b3.typ = BlockSubSubHeader) (h4 : b4.typ = BlockSubHeader)
    (h5 : b5.typ = BlockHeader) :
    tocIndents (getHeaderBlocks ctx.pageRoot.content) = [0, 1, 2, 1, 0]
  ∧ (renderTableOfContents ctx st block).buf = st.buf
      ++ "<nav id=\"" ++ block.id ++ "\" class=\""
      ++ cleanAttr (getBlockColorClass block ++ " table_of_contents") ++ "\">"
      ++ tocEntryStr ctx b1 0 ++ tocEntryStr ctx b2 1 ++ tocEntryStr ctx b3 2
      ++ tocEntryStr ctx b4 1 ++ tocEntryStr ctx b5 0 ++ "</nav>" := by
  constructor
  · rw [hh]
    simp [tocIndents, tocIndentsGo, adjustIndent, cmpBlockTypes, List.getD,
      h1, h2, h3, h4, h5, BlockHeader, BlockSubHeader, BlockSubSubHeader]
  · rw [renderTableOfContents_eq, hh]
    simp [tocStrGo, adjustIndent, cmpBlockTypes, List.getD,
      h1, h2, h3, h4, h5, BlockHeader, BlockSubHeader, BlockSubSubHeader,
      String.append_assoc]

/-! ## State-frame infrastructure for the numbered-list claim (C3)

`tame st st2` says a rendering step only appended to the output buffer:
buffer stack, sibling state and list counter are untouched. `quasiTame`
drops the list-counter component (renderer steps that may renumber). -/

def quasiTame (st st2 : St) : Prop :=
  (∃ s, st2.buf = st.buf ++ s) ∧ st2.bufs = st.bufs
    ∧ st2.currBlocks = st.currBlocks ∧ st2.currBlockIdx = st.currBlockIdx

def tame (st st2 : St) : Prop :=
  quasiTame st st2 ∧ st2.listNo = st.listNo

theorem quasiTame_refl (st : St) : quasiTame st st :=
  ⟨⟨"", by simp⟩, rfl, rfl, rfl⟩

theorem quasiTame_trans {s1 s2 s3 : St} (h1 : quasiTame s1 s2)
    (h2 : quasiTame s2 s3) : quasiTame s1 s3 := by
  obtain ⟨⟨x, hx⟩, hb1, hc1, hi1⟩ := h1
  obtain ⟨⟨y, hy⟩, hb2, hc2, hi2⟩ := h2
  exact ⟨⟨x ++ y, by rw [hy, hx, String.append_assoc]⟩,
    hb2.trans hb1, hc2.trans hc1, hi2.trans hi1⟩

theorem tame_refl (st : St) : tame st st := ⟨quasiTame_refl st, rfl⟩

theorem tame_trans {s1 s2 s3 : St} (h1 : tame s1 s2) (h2 : tame s2 s3) :
    tame s1 s3 :=
  ⟨quasiTame_trans h1.1 h2.1, h2.2.trans h1.2⟩

theorem tame_printf_after {st st2 : St} (s : String) (h : tame st st2) :
    tame st (printf st2 s) :=
  tame_trans h ⟨⟨⟨s, rfl⟩, rfl, rfl, rfl⟩, rfl⟩

theorem tame_renderInlines_after {st st2 : St} (ctx : Ctx) (l : List TextSpan)
    (h : tame st st2) : tame st (renderInlines ctx st2 l) := by
  rw [renderInlines_eq]
  exact tame_trans h ⟨⟨⟨_, rfl⟩, rfl, rfl, rfl⟩, rfl⟩

theorem tame_emitA_after {st st2 : St} (uri text cls : String)
    (h : tame st st2) : tame st (emitA st2 uri text cls) :=
  tame_printf_after _ h

theorem tame_didImport_after {st st2 : St} (v : Bool) (h : tame st st2) :
    tame st ({ st2 with didImportKatexCSS := v }) :=
  tame_trans h ⟨⟨⟨"", by simp⟩, rfl, rfl, rfl⟩, rfl⟩

theorem tame_foldl_after {α : Type} {st st2 : St} (f : St → α → St)
    (hf : ∀ (s : St) (x : α), tame s (f s x)) (l : List α) (h : tame st st2) :
    tame st (l.foldl f st2) := by
  induction l generalizing st2 with
  | nil => exact h
  | cons x rest ih => exact ih (tame_trans h (hf st2 x))

theorem tame_renderCaption (ctx : Ctx) (st : St) (b : Block) :
    tame st (renderCaption ctx st b) := by
  unfold renderCaption
  split
  · exact tame_refl st
  · exact tame_printf_after _ (tame_renderInlines_after ctx _
      (tame_printf_after _ (tame_refl st)))

theorem tame_renderCaption_after {st st2 : St} (ctx : Ctx) (b : Block)
    (h : tame st st2) : tame st (renderCaption ctx st2 b) :=
  tame_trans h (tame_renderCaption ctx st2 b)

end NotionSpec

namespace NotionSpec

theorem tame_of_bufUpdate (st : St) (s : String) :
    tame st { st with buf := st.buf ++ s } :=
  ⟨⟨⟨s, rfl⟩, rfl, rfl, rfl⟩, rfl⟩

theorem tame_renderCode (st : St) (b : Block) : tame st (renderCode st b) := by
  unfold renderCode
  repeat first
    | exact tame_refl _
    | apply tame_printf_after

theorem tame_renderBookmark (ctx : Ctx) (st : St) (b : Block) :
    tame st (renderBookmark ctx st b) := by
  unfold renderBookmark
  apply tame_printf_after
  apply tame_renderCaption_after
  repeat first
    | exact tame_refl _
    | apply tame_printf_after
    | split

theorem tame_renderAudioVideo (ctx : Ctx) (anc : List Block) (st : St)
    (b : Block) : tame st (renderAudioVideo ctx anc st b) := by
  unfold renderAudioVideo
  apply tame_printf_after
  apply tame_renderCaption_after
  repeat first
    | exact tame_refl _
    | apply tame_printf_after
    | split

theorem tame_renderEmbedHelper (ctx : Ctx) (st : St) (b : Block) :
    tame st (renderEmbedHelper ctx st b) := by
  unfold renderEmbedHelper
  apply tame_printf_after
  apply tame_renderCaption_after
  repeat first
    | exact tame_refl _
    | apply tame_printf_after
    | split

theorem tame_renderEmbedBlock (ctx : Ctx) (anc : List Block) (st : St)
    (b : Block) : tame st (renderEmbedBlock ctx anc st b) := by
  unfold renderEmbedBlock
  apply tame_printf_after
  apply tame_renderCaption_after
  repeat first
    | exact tame_refl _
    | apply tame_printf_after
    | split

theorem tame_renderFigma (ctx : Ctx) (st : St) (b : Block) :
    tame st (renderFigma ctx st b) := by
  unfold renderFigma
  apply tame_printf_after
  apply tame_renderCaption_after
  repeat first
    | exact tame_refl _
    | apply tame_printf_after
    | split

theorem tame_renderFile (ctx : Ctx) (anc : List Block) (st : St) (b : Block) :
    tame st (renderFile ctx anc st b) := by
  unfold renderFile
  exact tame_printf_after _ (tame_renderCaption_after ctx _
    (tame_printf_after _ (tame_printf_after _ (tame_printf_after _
      (tame_printf_after _ (tame_refl st))))))

theorem tame_renderDrive (ctx : Ctx) (st : St) (b : Block) :
    tame st (renderDrive ctx st b) := by
  unfold renderDrive
  apply tame_printf_after
  apply tame_renderCaption_after
  repeat first
    | exact tame_refl _
    | apply tame_printf_after

theorem tame_renderPDF (ctx : Ctx) (anc : List Block) (st : St) (b : Block) :
    tame st (renderPDF ctx anc st b) := by
  unfold renderPDF
  exact tame_printf_after _ (tame_renderCaption_after ctx _
    (tame_printf_after _ (tame_printf_after _ (tame_printf_after _
      (tame_printf_after _ (tame_refl st))))))

theorem tame_renderImage (ctx : Ctx) (anc : List Block) (st : St) (b : Block) :
    tame st (renderImage ctx anc st b) := by
  unfold renderImage
  apply tame_printf_after
  apply tame_renderCaption_after
  repeat first
    | exact tame_refl _
    | apply tame_printf_after
    | split

theorem tame_renderDivider (st : St) (b : Block) :
    tame st (renderDivider st b) :=
  tame_printf_after _ (tame_refl st)

theorem tame_renderNYI (st : St) (b : Block) : tame st (renderNYI st b) :=
  tame_printf_after _ (tame_refl st)

theorem tame_renderBreadcrumb (ctx : Ctx) (st : St) (b : Block) :
    tame st (renderBreadcrumb ctx st b) := by
  unfold renderBreadcrumb
  split
  · exact tame_refl st
  · exact tame_renderNYI st b

theorem tame_renderCallout (ctx : Ctx) (st : St) (b : Block) :
    tame st (renderCallout ctx st b) := by
  unfold renderCallout
  apply tame_printf_after
  apply tame_printf_after
  apply tame_renderInlines_after
  repeat first
    | exact tame_refl _
    | apply tame_printf_after

theorem tame_renderEquation (ctx : Ctx) (st : St) (b : Block) :
    tame st (renderEquation ctx st b) := by
  unfold renderEquation
  split
  · apply tame_printf_after
    apply tame_renderInlines_after
    apply tame_printf_after
    exact tame_refl _
  · dsimp only
    split
    · apply tame_printf_after
      apply tame_renderInlines_after
      apply tame_printf_after
      exact tame_refl _
    · apply tame_printf_after
      apply tame_printf_after
      apply tame_printf_after
      apply tame_printf_after
      split
      · apply tame_didImport_after
        apply tame_printf_after
        apply tame_printf_after
        exact tame_refl _
      · apply tame_printf_after
        exact tame_refl _

theorem tame_renderHeaderLevel (ctx : Ctx) (st : St) (b : Block) (lv : Nat) :
    tame st (renderHeaderLevel ctx st b lv) := by
  unfold renderHeaderLevel
  apply tame_printf_after
  apply tame_renderInlines_after
  repeat first
    | exact tame_refl _
    | apply tame_printf_after
    | split

theorem tame_renderTodoOpen (ctx : Ctx) (st : St) (b : Block) :
    tame st (renderTodoOpen ctx st b) := by
  unfold renderTodoOpen
  apply tame_printf_after
  apply tame_renderInlines_after
  repeat first
    | exact tame_refl _
    | apply tame_printf_after

theorem tame_renderPageHeader (ctx : Ctx) (anc : List Block) (st : St)
    (b : Block) : tame st (renderPageHeader ctx anc st b) := by
  unfold renderPageHeader
  all_goals try dsimp only
  repeat any_goals split
  all_goals try simp only [emitA, printf, renderInlines_eq, String.append_assoc]
  all_goals first
    | exact tame_of_bufUpdate _ _
    | exact tame_refl st

theorem tame_renderLinkToPage (ctx : Ctx) (anc : List Block) (st : St)
    (b : Block) : tame st (renderLinkToPage ctx anc st b) := by
  unfold renderLinkToPage
  all_goals try dsimp only
  repeat any_goals split
  all_goals try simp only [emitA, printf, renderInlines_eq, String.append_assoc]
  all_goals first
    | exact tame_of_bufUpdate _ _
    | exact tame_refl st

theorem tame_renderCollectionViewPage (ctx : Ctx) (st : St) (b : Block) :
    tame st (renderCollectionViewPage ctx st b) := by
  unfold renderCollectionViewPage
  repeat first
    | exact tame_refl _
    | apply tame_printf_after

theorem tame_tocEmitGo (ctx : Ctx) (blocks : List Block) (i : Nat)
    (indent : Int) (n : Nat) (st : St) :
    tame st (tocEmitGo ctx blocks i indent n st) := by
  rw [tocEmitGo_eq]
  exact tame_of_bufUpdate _ _

theorem tame_renderTableOfContents (ctx : Ctx) (st : St) (b : Block) :
    tame st (renderTableOfContents ctx st b) := by
  rw [renderTableOfContents_eq]
  exact tame_of_bufUpdate _ _

theorem tame_renderCollectionCell (ctx : Ctx) (anc : List Block) (b : Block)
    (collection : Collection) (row : RowBlock) (st : St) (col : TableColumn) :
    tame st (renderCollectionCell ctx anc b collection row st col) := by
  unfold renderCollectionCell
  simp only [getInlineContentSt_eq]
  exact tame_printf_after _ (tame_refl st)

theorem tame_renderCollectionRow (ctx : Ctx) (anc : List Block) (b : Block)
    (collection : Collection) (columns : List TableColumn) (st : St)
    (row : RowBlock) :
    tame st (renderCollectionRow ctx anc b collection columns st row) := by
  unfold renderCollectionRow
  refine tame_printf_after _ ?_
  exact tame_foldl_after _ (fun s x => tame_renderCollectionCell ctx anc b
    collection row s x) columns (tame_printf_after _ (tame_refl st))

theorem tame_renderCollectionView (ctx : Ctx) (anc : List Block) (st : St)
    (b : Block) : tame st (renderCollectionView ctx anc st b) := by
  unfold renderCollectionView
  split
  · exact tame_refl st
  · dsimp only
    split
    · exact tame_refl st
    · apply tame_printf_after
      apply tame_printf_after
      apply tame_printf_after
      refine tame_foldl_after _ (fun s r => tame_renderCollectionRow ctx anc b
        _ _ s r) _ ?_
      apply tame_printf_after
      apply tame_printf_after
      apply tame_printf_after
      refine tame_foldl_after _ (fun s col => ?_) _ ?_
      · unfold renderCollectionHeaderCell
        exact tame_printf_after _ (tame_refl s)
      · repeat first
          | exact tame_refl _
          | apply tame_printf_after


/-- No block in the given forest (the blocks themselves or any of their
descendants) is a numbered-list block. -/
def subtreeNoNumbered : List Block → Bool
  | [] => true
  | b :: rest =>
    (b.typ != BlockNumberedList) && subtreeNoNumbered b.content
      && subtreeNoNumbered rest
termination_by bs => sizeOf bs
decreasing_by
  all_goals simp_wf
  all_goals try omega
  all_goals (cases b; simp; omega)

theorem quasi_of_tame {st st2 : St} (h : tame st st2) : quasiTame st st2 := h.1

theorem printf_listNo (st : St) (s : String) : (printf st s).listNo = st.listNo :=
  rfl

theorem subtreeNoNumbered_cons {b : Block} {rest : List Block}
    (h : subtreeNoNumbered (b :: rest) = true) :
    b.typ ≠ BlockNumberedList ∧ subtreeNoNumbered b.content = true
      ∧ subtreeNoNumbered rest = true := by
  rw [subtreeNoNumbered] at h
  simp only [Bool.and_eq_true, bne_iff_ne] at h
  exact ⟨h.1.1, h.1.2, h.2⟩

/-- Witness for the amended C4 on the concrete [H1,H2,H3,H2,H1] page. -/
theorem c4_amended_toc_indents_witness :
    tocIndents (getHeaderBlocks ctxToc.pageRoot.content) = [0, 1, 2, 1, 0]
  ∧ (renderTableOfContents ctxToc initSt tocBlock).buf = initSt.buf
      ++ "<nav id=\"" ++ tocBlock.id ++ "\" class=\""
      ++ cleanAttr (getBlockColorClass tocBlock ++ " table_of_contents") ++ "\">"
      ++ tocEntryStr ctxToc (hdr "h1" BlockHeader) 0
      ++ tocEntryStr ctxToc (hdr "h2" BlockSubHeader) 1
      ++ tocEntryStr ctxToc (hdr "h3" BlockSubSubHeader) 2
      ++ tocEntryStr ctxToc (hdr "h4" BlockSubHeader) 1
      ++ tocEntryStr ctxToc (hdr "h5" BlockHeader) 0 ++ "</nav>" :=
  c4_amended_toc_indents ctxToc initSt tocBlock _ _ _ _ _
    tocPage_headerBlocks rfl rfl rfl rfl rfl

theorem sizeOf_content_lt (b : Block) : sizeOf b.content < sizeOf b := by
  cases b; simp; omega

theorem tame_renderPageHeader_after {st st2 : St} (ctx : Ctx)
    (anc : List Block) (b : Block) (h : tame st st2) :
    tame st (renderPageHeader ctx anc st2 b) :=
  tame_trans h (tame_renderPageHeader ctx anc st2 b)

theorem tame_renderTodoOpen_after {st st2 : St} (ctx : Ctx) (b : Block)
    (h : tame st st2) : tame st (renderTodoOpen ctx st2 b) :=
  tame_trans h (tame_renderTodoOpen ctx st2 b)

/-- Composition shape of every child-bearing renderer: tame opening
emission, then `RenderChildren`, then tame closing emission. -/
theorem quasi_block_chain {st stPre : St} (ctx : Ctx) (anc : List Block)
    (b : Block) (hpre : tame st stPre)
    (hch : quasiTame stPre (renderChildren ctx anc stPre b)
      ∧ (subtreeNoNumbered b.content = true →
          (renderChildren ctx anc stPre b).listNo = stPre.listNo))
    (post : St → St) (hpost : ∀ s, tame s (post s)) :
    quasiTame st (post (renderChildren ctx anc stPre b))
    ∧ (b.typ ≠ BlockNumberedList → subtreeNoNumbered b.content = true →
        (post (renderChildren ctx anc stPre b)).listNo = st.listNo) := by
  constructor
  · exact quasiTame_trans (quasi_of_tame hpre)
      (quasiTame_trans hch.1 (quasi_of_tame (hpost _)))
  · intro _ hnn
    rw [(hpost _).2, hch.2 hnn, hpre.2]

theorem renderBlockDefault_page (ctx : Ctx) (anc : List Block) (st : St)
    {b : Block} (h : b.typ = BlockPage) :
    renderBlockDefault ctx anc st b = renderPage ctx anc st b := by
  rw [renderBlockDefault, h]
  rw [if_pos rfl]

theorem renderBlockDefault_text (ctx : Ctx) (anc : List Block) (st : St)
    {b : Block} (h : b.typ = BlockText) :
    renderBlockDefault ctx anc st b = renderText ctx anc st b := by
  rw [renderBlockDefault, h]
  rw [if_neg (show BlockText ≠ BlockPage by decide),
    if_pos rfl]

theorem renderBlockDefault_equation (ctx : Ctx) (anc : List Block) (st : St)
    {b : Block} (h : b.typ = BlockEquation) :
    renderBlockDefault ctx anc st b = renderEquation ctx st b := by
  rw [renderBlockDefault, h]
  rw [if_neg (show BlockEquation ≠ BlockPage by decide),
    if_neg (show BlockEquation ≠ BlockText by decide),
    if_pos rfl]

theorem renderBlockDefault_numberedList (ctx : Ctx) (anc : List Block) (st : St)
    {b : Block} (h : b.typ = BlockNumberedList) :
    renderBlockDefault ctx anc st b = renderNumberedList ctx anc st b := by
  rw [renderBlockDefault, h]
  rw [if_neg (show BlockNumberedList ≠ BlockPage by decide),
    if_neg (show BlockNumberedList ≠ BlockText by decide),
    if_neg (show BlockNumberedList ≠ BlockEquation by decide),
    if_pos rfl]

theorem renderBlockDefault_bulletedList (ctx : Ctx) (anc : List Block) (st : St)
    {b : Block} (h : b.typ = BlockBulletedList) :
    renderBlockDefault ctx anc st b = renderBulletedList ctx anc st b := by
  rw [renderBlockDefault, h]
  rw [if_neg (show BlockBulletedList ≠ BlockPage by decide),
    if_neg (show BlockBulletedList ≠ BlockText by decide),
    if_neg (show BlockBulletedList ≠ BlockEquation by decide),
    if_neg (show BlockBulletedList ≠ BlockNumberedList by decide),
    if_pos rfl]

theorem renderBlockDefault_header (ctx : Ctx) (anc : List Block) (st : St)
    {b : Block} (h : b.typ = BlockHeader) :
    renderBlockDefault ctx anc st b = renderHeaderLevel ctx st b 1 := by
  rw [renderBlockDefault, h]
  rw [if_neg (show BlockHeader ≠ BlockPage by decide),
    if_neg (show BlockHeader ≠ BlockText by decide),
    if_neg (show BlockHeader ≠ BlockEquation by decide),
    if_neg (show BlockHeader ≠ BlockNumberedList by decide),
    if_neg (show BlockHeader ≠ BlockBulletedList by decide),
    if_pos rfl]

theorem renderBlockDefault_subHeader (ctx : Ctx) (anc : List Block) (st : St)
    {b : Block} (h : b.typ = BlockSubHeader) :
    renderBlockDefault ctx anc st b = renderHeaderLevel ctx st b 2 := by
  rw [renderBlockDefault, h]
  rw [if_neg (show BlockSubHeader ≠ BlockPage by decide),
    if_neg (show BlockSubHeader ≠ BlockText by decide),
    if_neg (show BlockSubHeader ≠ BlockEquation by decide),
    if_neg (show BlockSubHeader ≠ BlockNumberedList by decide),
    if_neg (show BlockSubHeader ≠ BlockBulletedList by decide),
    if_neg (show BlockSubHeader ≠ BlockHeader by decide),
    if_pos rfl]

theorem renderBlockDefault_subSubHeader (ctx : Ctx) (anc : List Block) (st : St)
    {b : Block} (h : b.typ = BlockSubSubHeader) :
    renderBlockDefault ctx anc st b = renderHeaderLevel ctx st b 3 := by
  rw [renderBlockDefault, h]
  rw [if_neg (show BlockSubSubHeader ≠ BlockPage by decide),
    if_neg (show BlockSubSubHeader ≠ BlockText by decide),
    if_neg (show BlockSubSubHeader ≠ BlockEquation by decide),
    if_neg (show BlockSubSubHeader ≠ BlockNumberedList by decide),
    if_neg (show BlockSubSubHeader ≠ BlockBulletedList by decide),
    if_neg (show BlockSubSubHeader ≠ BlockHeader by decide),
    if_neg (show BlockSubSubHeader ≠ BlockSubHeader by decide),
    if_pos rfl]

theorem renderBlockDefault_todo (ctx : Ctx) (anc : List Block) (st : St)
    {b : Block} (h : b.typ = BlockTodo) :
    renderBlockDefault ctx anc st b = renderTodo ctx anc st b := by
  rw [renderBlockDefault, h]
  rw [if_neg (show BlockTodo ≠ BlockPage by decide),
    if_neg (show BlockTodo ≠ BlockText by decide),
    if_neg (show BlockTodo ≠ BlockEquation by decide),
    if_neg (show BlockTodo ≠ BlockNumberedList by decide),
    if_neg (show BlockTodo ≠ BlockBulletedList by decide),
    if_neg (show BlockTodo ≠ BlockHeader by decide),
    if_neg (show BlockTodo ≠ BlockSubHeader by decide),
    if_neg (show BlockTodo ≠ BlockSubSubHeader by decide),
    if_pos rfl]

theorem renderBlockDefault_toggle (ctx : Ctx) (anc : List Block) (st : St)
    {b : Block} (h : b.typ = BlockToggle) :
    renderBlockDefault ctx anc st b = renderToggle ctx anc st b := by
  rw [renderBlockDefault, h]
  rw [if_neg (show BlockToggle ≠ BlockPage by decide),
    if_neg (show BlockToggle ≠ BlockText by decide),
    if_neg (show BlockToggle ≠ BlockEquation by decide),
    if_neg (show BlockToggle ≠ BlockNumberedList by decide),
    if_neg (show BlockToggle ≠ BlockBulletedList by decide),
    if_neg (show BlockToggle ≠ BlockHeader by decide),
    if_neg (show BlockToggle ≠ BlockSubHeader by decide),
    if_neg (show BlockToggle ≠ BlockSubSubHeader by decide),
    if_neg (show BlockToggle ≠ BlockTodo by decide),
    if_pos rfl]

theorem renderBlockDefault_quote (ctx : Ctx) (anc : List Block) (st : St)
    {b : Block} (h : b.typ = BlockQuote) :
    renderBlockDefault ctx anc st b = renderQuote ctx anc st b := by
  rw [renderBlockDefault, h]
  rw [if_neg (show BlockQuote ≠ BlockPage by decide),
    if_neg (show BlockQuote ≠ BlockText by decide),
    if_neg (show BlockQuote ≠ BlockEquation by decide),
    if_neg (show BlockQuote ≠ BlockNumberedList by decide),
    if_neg (show BlockQuote ≠ BlockBulletedList by decide),
    if_neg (show BlockQuote ≠ BlockHeader by decide),
    if_neg (show BlockQuote ≠ BlockSubHeader by decide),
    if_neg (show BlockQuote ≠ BlockSubSubHeader by decide),
    if_neg (show BlockQuote ≠ BlockTodo by decide),
    if_neg (show BlockQuote ≠ BlockToggle by decide),
    if_pos rfl]

theorem renderBlockDefault_divider (ctx : Ctx) (anc : List Block) (st : St)
    {b : Block} (h : b.typ = BlockDivider) :
    renderBlockDefault ctx anc st b = renderDivider st b := by
  rw [renderBlockDefault, h]
  rw [if_neg (show BlockDivider ≠ BlockPage by decide),
    if_neg (show BlockDivider ≠ BlockText by decide),
    if_neg (show BlockDivider ≠ BlockEquation by decide),
    if_neg (show BlockDivider ≠ BlockNumberedList by decide),
    if_neg (show BlockDivider ≠ BlockBulletedList by decide),
    if_neg (show BlockDivider ≠ BlockHeader by decide),
    if_neg (show BlockDivider ≠ BlockSubHeader by decide),
    if_neg (show BlockDivider ≠ BlockSubSubHeader by decide),
    if_neg (show BlockDivider ≠ BlockTodo by decide),
    if_neg (show BlockDivider ≠ BlockToggle by decide),
    if_neg (show BlockDivider ≠ BlockQuote by decide),
    if_pos rfl]

theorem renderBlockDefault_codeBlock (ctx : Ctx) (anc : List Block) (st : St)
    {b : Block} (h : b.typ = BlockCode) :
    renderBlockDefault ctx anc st b = renderCode st b := by
  rw [renderBlockDefault, h]
  rw [if_neg (show BlockCode ≠ BlockPage by decide),
    if_neg (show BlockCode ≠ BlockText by decide),
    if_neg (show BlockCode ≠ BlockEquation by decide),
    if_neg (show BlockCode ≠ BlockNumberedList by decide),
    if_neg (show BlockCode ≠ BlockBulletedList by decide),
    if_neg (show BlockCode ≠ BlockHeader by decide),
    if_neg (show BlockCode ≠ BlockSubHeader by decide),
    if_neg (show BlockCode ≠ BlockSubSubHeader by decide),
    if_neg (show BlockCode ≠ BlockTodo by decide),
    if_neg (show BlockCode ≠ BlockToggle by decide),
    if_neg (show BlockCode ≠ BlockQuote by decide),
    if_neg (show BlockCode ≠ BlockDivider by decide),
    if_pos rfl]

theorem renderBlockDefault_bookmark (ctx : Ctx) (anc : List Block) (st : St)
    {b : Block} (h : b.typ = BlockBookmark) :
    renderBlockDefault ctx anc st b = renderBookmark ctx st b := by
  rw [renderBlockDefault, h]
  rw [if_neg (show BlockBookmark ≠ BlockPage by decide),
    if_neg (show BlockBookmark ≠ BlockText by decide),
    if_neg (show BlockBookmark ≠ BlockEquation by decide),
    if_neg (show BlockBookmark ≠ BlockNumberedList by decide),
    if_neg (show BlockBookmark ≠ BlockBulletedList by decide),
    if_neg (show BlockBookmark ≠ BlockHeader by decide),
    if_neg (show BlockBookmark ≠ BlockSubHeader by decide),
    if_neg (show BlockBookmark ≠ BlockSubSubHeader by decide),
    if_neg (show BlockBookmark ≠ BlockTodo by decide),
    if_neg (show BlockBookmark ≠ BlockToggle by decide),
    if_neg (show BlockBookmark ≠ BlockQuote by decide),
    if_neg (show BlockBookmark ≠ BlockDivider by decide),
    if_neg (show BlockBookmark ≠ BlockCode by decide),
    if_pos rfl]

theorem renderBlockDefault_image (ctx : Ctx) (anc : List Block) (st : St)
    {b : Block} (h : b.typ = BlockImage) :
    renderBlockDefault ctx anc st b = renderImage ctx anc st b := by
  rw [renderBlockDefault, h]
  rw [if_neg (show BlockImage ≠ BlockPage by decide),
    if_neg (show BlockImage ≠ BlockText by decide),
    if_neg (show BlockImage ≠ BlockEquation by decide),
    if_neg (show BlockImage ≠ BlockNumberedList by decide),
    if_neg (show BlockImage ≠ BlockBulletedList by decide),
    if_neg (show BlockImage ≠ BlockHeader by decide),
    if_neg (show BlockImage ≠ BlockSubHeader by decide),
    if_neg (show BlockImage ≠ BlockSubSubHeader by decide),
    if_neg (show BlockImage ≠ BlockTodo by decide),
    if_neg (show BlockImage ≠ BlockToggle by decide),
    if_neg (show BlockImage ≠ BlockQuote by decide),
    if_neg (show BlockImage ≠ BlockDivider by decide),
    if_neg (show BlockImage ≠ BlockCode by decide),
    if_neg (show BlockImage ≠ BlockBookmark by decide),
    if_pos rfl]

theorem renderBlockDefault_columnList (ctx : Ctx) (anc : List Block) (st : St)
    {b : Block} (h : b.typ = BlockColumnList) :
    renderBlockDefault ctx anc st b = renderColumnList ctx anc st b := by
  rw [renderBlockDefault, h]
  rw [if_neg (show BlockColumnList ≠ BlockPage by decide),
    if_neg (show BlockColumnList ≠ BlockText by decide),
    if_neg (show BlockColumnList ≠ BlockEquation by decide),
    if_neg (show BlockColumnList ≠ BlockNumberedList by decide),
    if_neg (show BlockColumnList ≠ BlockBulletedList by decide),
    if_neg (show BlockColumnList ≠ BlockHeader by decide),
    if_neg (show BlockColumnList ≠ BlockSubHeader by decide),
    if_neg (show BlockColumnList ≠ BlockSubSubHeader by decide),
    if_neg (show BlockColumnList ≠ BlockTodo by decide),
    if_neg (show BlockColumnList ≠ BlockToggle by decide),
    if_neg (show BlockColumnList ≠ BlockQuote by decide),
    if_neg (show BlockColumnList ≠ BlockDivider by decide),
    if_neg (show BlockColumnList ≠ BlockCode by decide),
    if_neg (show BlockColumnList ≠ BlockBookmark by decide),
    if_neg (show BlockColumnList ≠ BlockImage by decide),
    if_pos rfl]

theorem renderBlockDefault_column (ctx : Ctx) (anc : List Block) (st : St)
    {b : Block} (h : b.typ = BlockColumn) :
    renderBlockDefault ctx anc st b = renderColumn ctx anc st b := by
  rw [renderBlockDefault, h]
  rw [if_neg (show BlockColumn ≠ BlockPage by decide),
    if_neg (show BlockColumn ≠ BlockText by decide),
    if_neg (show BlockColumn ≠ BlockEquation by decide),
    if_neg (show BlockColumn ≠ BlockNumberedList by decide),
    if_neg (show BlockColumn ≠ BlockBulletedList by decide),
    if_neg (show BlockColumn ≠ BlockHeader by decide),
    if_neg (show BlockColumn ≠ BlockSubHeader by decide),
    if_neg (show BlockColumn ≠ BlockSubSubHeader by decide),
    if_neg (show BlockColumn ≠ BlockTodo by decide),
    if_neg (show BlockColumn ≠ BlockToggle by decide),
    if_neg (show BlockColumn ≠ BlockQuote by decide),
    if_neg (show BlockColumn ≠ BlockDivider by decide),
    if_neg (show BlockColumn ≠ BlockCode by decide),
    if_neg (show BlockColumn ≠ BlockBookmark by decide),
    if_neg (show BlockColumn ≠ BlockImage by decide),
    if_neg (show BlockColumn ≠ BlockColumnList by decide),
    if_pos rfl]

theorem renderBlockDefault_collectionView (ctx : Ctx) (anc : List Block) (st : St)
    {b : Block} (h : b.typ = BlockCollectionView) :
    renderBlockDefault ctx anc st b = renderCollectionView ctx anc st b := by
  rw [renderBlockDefault, h]
  rw [if_neg (show BlockCollectionView ≠ BlockPage by decide),
    if_neg (show BlockCollectionView ≠ BlockText by decide),
    if_neg (show BlockCollectionView ≠ BlockEquation by decide),
    if_neg (show BlockCollectionView ≠ BlockNumberedList by decide),
    if_neg (show BlockCollectionView ≠ BlockBulletedList by decide),
    if_neg (show BlockCollectionView ≠ BlockHeader by decide),
    if_neg (show BlockCollectionView ≠ BlockSubHeader by decide),
    if_neg (show BlockCollectionView ≠ BlockSubSubHeader by decide),
    if_neg (show BlockCollectionView ≠ BlockTodo by decide),
    if_neg (show BlockCollectionView ≠ BlockToggle by decide),
    if_neg (show BlockCollectionView ≠ BlockQuote by decide),
    if_neg (show BlockCollectionView ≠ BlockDivider by decide),
    if_neg (show BlockCollectionView ≠ BlockCode by decide),
    if_neg (show BlockCollectionView ≠ BlockBookmark by decide),
    if_neg (show BlockCollectionView ≠ BlockImage by decide),
    if_neg (show BlockCollectionView ≠ BlockColumnList by decide),
    if_neg (show BlockCollectionView ≠ BlockColumn by decide),
    if_pos rfl]

theorem renderBlockDefault_collectionViewPage (ctx : Ctx) (anc : List Block) (st : St)
    {b : Block} (h : b.typ = BlockCollectionViewPage) :
    renderBlockDefault ctx anc st b = renderCollectionViewPage ctx st b := by
  rw [renderBlockDefault, h]
  rw [if_neg (show BlockCollectionViewPage ≠ BlockPage by decide),
    if_neg (show BlockCollectionViewPage ≠ BlockText by decide),
    if_neg (show BlockCollectionViewPage ≠ BlockEquation by decide),
    if_neg (show BlockCollectionViewPage ≠ BlockNumberedList by decide),
    if_neg (show BlockCollectionViewPage ≠ BlockBulletedList by decide),
    if_neg (show BlockCollectionViewPage ≠ BlockHeader by decide),
    if_neg (show BlockCollectionViewPage ≠ BlockSubHeader by decide),
    if_neg (show BlockCollectionViewPage ≠ BlockSubSubHeader by decide),
    if_neg (show BlockCollectionViewPage ≠ BlockTodo by decide),
    if_neg (show BlockCollectionViewPage ≠ BlockToggle by decide),
    if_neg (show BlockCollectionViewPage ≠ BlockQuote by decide),
    if_neg (show BlockCollectionViewPage ≠ BlockDivider by decide),
    if_neg (show BlockCollectionViewPage ≠ BlockCode by decide),
    if_neg (show BlockCollectionViewPage ≠ BlockBookmark by decide),
    if_neg (show BlockCollectionViewPage ≠ BlockImage by decide),
    if_neg (show BlockCollectionViewPage ≠ BlockColumnList by decide),
    if_neg (show BlockCollectionViewPage ≠ BlockColumn by decide),
    if_neg (show BlockCollectionViewPage ≠ BlockCollectionView by decide),
    if_pos rfl]

theorem renderBlockDefault_embed (ctx : Ctx) (anc : List Block) (st : St)
    {b : Block} (h : b.typ = BlockEmbed) :
    renderBlockDefault ctx anc st b = renderEmbedBlock ctx anc st b := by
  rw [renderBlockDefault, h]
  rw [if_neg (show BlockEmbed ≠ BlockPage by decide),
    if_neg (show BlockEmbed ≠ BlockText by decide),
    if_neg (show BlockEmbed ≠ BlockEquation by decide),
    if_neg (show BlockEmbed ≠ BlockNumberedList by decide),
    if_neg (show BlockEmbed ≠ BlockBulletedList by decide),
    if_neg (show BlockEmbed ≠ BlockHeader by decide),
    if_neg (show BlockEmbed ≠ BlockSubHeader by decide),
    if_neg (show BlockEmbed ≠ BlockSubSubHeader by decide),
    if_neg (show BlockEmbed ≠ BlockTodo by decide),
    if_neg (show BlockEmbed ≠ BlockToggle by decide),
    if_neg (show BlockEmbed ≠ BlockQuote by decide),
    if_neg (show BlockEmbed ≠ BlockDivider by decide),
    if_neg (show BlockEmbed ≠ BlockCode by decide),
    if_neg (show BlockEmbed ≠ BlockBookmark by decide),
    if_neg (show BlockEmbed ≠ BlockImage by decide),
    if_neg (show BlockEmbed ≠ BlockColumnList by decide),
    if_neg (show BlockEmbed ≠ BlockColumn by decide),
    if_neg (show BlockEmbed ≠ BlockCollectionView by decide),
    if_neg (show BlockEmbed ≠ BlockCollectionViewPage by decide),
    if_pos rfl]

theorem renderBlockDefault_gist (ctx : Ctx) (anc : List Block) (st : St)
    {b : Block} (h : b.typ = BlockGist) :
    renderBlockDefault ctx anc st b = renderEmbedHelper ctx st b := by
  rw [renderBlockDefault, h]
  rw [if_neg (show BlockGist ≠ BlockPage by decide),
    if_neg (show BlockGist ≠ BlockText by decide),
    if_neg (show BlockGist ≠ BlockEquation by decide),
    if_neg (show BlockGist ≠ BlockNumberedList by decide),
    if_neg (show BlockGist ≠ BlockBulletedList by decide),
    if_neg (show BlockGist ≠ BlockHeader by decide),
    if_neg (show BlockGist ≠ BlockSubHeader by decide),
    if_neg (show BlockGist ≠ BlockSubSubHeader by decide),
    if_neg (show BlockGist ≠ BlockTodo by decide),
    if_neg (show BlockGist ≠ BlockToggle by decide),
    if_neg (show BlockGist ≠ BlockQuote by decide),
    if_neg (show BlockGist ≠ BlockDivider by decide),
    if_neg (show BlockGist ≠ BlockCode by decide),
    if_neg (show BlockGist ≠ BlockBookmark by decide),
    if_neg (show BlockGist ≠ BlockImage by decide),
    if_neg (show BlockGist ≠ BlockColumnList by decide),
    if_neg (show BlockGist ≠ BlockColumn by decide),
    if_neg (show BlockGist ≠ BlockCollectionView by decide),
    if_neg (show BlockGist ≠ BlockCollectionViewPage by decide),
    if_neg (show BlockGist ≠ BlockEmbed by decide),
    if_pos rfl]

theorem renderBlockDefault_maps (ctx : Ctx) (anc : List Block) (st : St)
    {b : Block} (h : b.typ = BlockMaps) :
    renderBlockDefault ctx anc st b = renderEmbedHelper ctx st b := by
  rw [renderBlockDefault, h]
  rw [if_neg (show BlockMaps ≠ BlockPage by decide),
    if_neg (show BlockMaps ≠ BlockText by decide),
    if_neg (show BlockMaps ≠ BlockEquation by decide),
    if_neg (show BlockMaps ≠ BlockNumberedList by decide),
    if_neg (show BlockMaps ≠ BlockBulletedList by decide),
    if_neg (show BlockMaps ≠ BlockHeader by decide),
    if_neg (show BlockMaps ≠ BlockSubHeader by decide),
    if_neg (show BlockMaps ≠ BlockSubSubHeader by decide),
    if_neg (show BlockMaps ≠ BlockTodo by decide),
    if_neg (show BlockMaps ≠ BlockToggle by decide),
    if_neg (show BlockMaps ≠ BlockQuote by decide),
    if_neg (show BlockMaps ≠ BlockDivider by decide),
    if_neg (show BlockMaps ≠ BlockCode by decide),
    if_neg (show BlockMaps ≠ BlockBookmark by decide),
    if_neg (show BlockMaps ≠ BlockImage by decide),
    if_neg (show BlockMaps ≠ BlockColumnList by decide),
    if_neg (show BlockMaps ≠ BlockColumn by decide),
    if_neg (show BlockMaps ≠ BlockCollectionView by decide),
    if_neg (show BlockMaps ≠ BlockCollectionViewPage by decide),
    if_neg (show BlockMaps ≠ BlockEmbed by decide),
    if_neg (show BlockMaps ≠ BlockGist by decide),
    if_pos rfl]

theorem renderBlockDefault_codepen (ctx : Ctx) (anc : List Block) (st : St)
    {b : Block} (h : b.typ = BlockCodepen) :
    renderBlockDefault ctx anc st b = renderEmbedHelper ctx st b := by
  rw [renderBlockDefault, h]
  rw [if_neg (show BlockCodepen ≠ BlockPage by decide),
    if_neg (show BlockCodepen ≠ BlockText by decide),
    if_neg (show BlockCodepen ≠ BlockEquation by decide),
    if_neg (show BlockCodepen ≠ BlockNumberedList by decide),
    if_neg (show BlockCodepen ≠ BlockBulletedList by decide),
    if_neg (show BlockCodepen ≠ BlockHeader by decide),
    if_neg (show BlockCodepen ≠ BlockSubHeader by decide),
    if_neg (show BlockCodepen ≠ BlockSubSubHeader by decide),
    if_neg (show BlockCodepen ≠ BlockTodo by decide),
    if_neg (show BlockCodepen ≠ BlockToggle by decide),
    if_neg (show BlockCodepen ≠ BlockQuote by decide),
    if_neg (show BlockCodepen ≠ BlockDivider by decide),
    if_neg (show BlockCodepen ≠ BlockCode by decide),
    if_neg (show BlockCodepen ≠ BlockBookmark by decide),
    if_neg (show BlockCodepen ≠ BlockImage by decide),
    if_neg (show BlockCodepen ≠ BlockColumnList by decide),
    if_neg (show BlockCodepen ≠ BlockColumn by decide),
    if_neg (show BlockCodepen ≠ BlockCollectionView by decide),
    if_neg (show BlockCodepen ≠ BlockCollectionViewPage by decide),
    if_neg (show BlockCodepen ≠ BlockEmbed by decide),
    if_neg (show BlockCodepen ≠ BlockGist by decide),
    if_neg (show BlockCodepen ≠ BlockMaps by decide),
    if_pos rfl]

theorem renderBlockDefault_tweet (ctx : Ctx) (anc : List Block) (st : St)
    {b : Block} (h : b.typ = BlockTweet) :
    renderBlockDefault ctx anc st b = renderEmbedHelper ctx st b := by
  rw [renderBlockDefault, h]
  rw [if_neg (show BlockTweet ≠ BlockPage by decide),
    if_neg (show BlockTweet ≠ BlockText by decide),
    if_neg (show BlockTweet ≠ BlockEquation by decide),
    if_neg (show BlockTweet ≠ BlockNumberedList by decide),
    if_neg (show BlockTweet ≠ BlockBulletedList by decide),
    if_neg (show BlockTweet ≠ BlockHeader by decide),
    if_neg (show BlockTweet ≠ BlockSubHeader by decide),
    if_neg (show BlockTweet ≠ BlockSubSubHeader by decide),
    if_neg (show BlockTweet ≠ BlockTodo by decide),
    if_neg (show BlockTweet ≠ BlockToggle by decide),
    if_neg (show BlockTweet ≠ BlockQuote by decide),
    if_neg (show BlockTweet ≠ BlockDivider by decide),
    if_neg (show BlockTweet ≠ BlockCode by decide),
    if_neg (show BlockTweet ≠ BlockBookmark by decide),
    if_neg (show BlockTweet ≠ BlockImage by decide),
    if_neg (show BlockTweet ≠ BlockColumnList by decide),
    if_neg (show BlockTweet ≠ BlockColumn by decide),
    if_neg (show BlockTweet ≠ BlockCollectionView by decide),
    if_neg (show BlockTweet ≠ BlockCollectionViewPage by decide),
    if_neg (show BlockTweet ≠ BlockEmbed by decide),
    if_neg (show BlockTweet ≠ BlockGist by decide),
    if_neg (show BlockTweet ≠ BlockMaps by decide),
    if_neg (show BlockTweet ≠ BlockCodepen by decide),
    if_pos rfl]

theorem renderBlockDefault_video (ctx : Ctx) (anc : List Block) (st : St)
    {b : Block} (h : b.typ = BlockVideo) :
    renderBlockDefault ctx anc st b = renderAudioVideo ctx anc st b := by
  rw [renderBlockDefault, h]
  rw [if_neg (show BlockVideo ≠ BlockPage by decide),
    if_neg (show BlockVideo ≠ BlockText by decide),
    if_neg (show BlockVideo ≠ BlockEquation by decide),
    if_neg (show BlockVideo ≠ BlockNumberedList by decide),
    if_neg (show BlockVideo ≠ BlockBulletedList by decide),
    if_neg (show BlockVideo ≠ BlockHeader by decide),
    if_neg (show BlockVideo ≠ BlockSubHeader by decide),
    if_neg (show BlockVideo ≠ BlockSubSubHeader by decide),
    if_neg (show BlockVideo ≠ BlockTodo by decide),
    if_neg (show BlockVideo ≠ BlockToggle by decide),
    if_neg (show BlockVideo ≠ BlockQuote by decide),
    if_neg (show BlockVideo ≠ BlockDivider by decide),
    if_neg (show BlockVideo ≠ BlockCode by decide),
    if_neg (show BlockVideo ≠ BlockBookmark by decide),
    if_neg (show BlockVideo ≠ BlockImage by decide),
    if_neg (show BlockVideo ≠ BlockColumnList by decide),
    if_neg (show BlockVideo ≠ BlockColumn by decide),
    if_neg (show BlockVideo ≠ BlockCollectionView by decide),
    if_neg (show BlockVideo ≠ BlockCollectionViewPage by decide),
    if_neg (show BlockVideo ≠ BlockEmbed by decide),
    if_neg (show BlockVideo ≠ BlockGist by decide),
    if_neg (show BlockVideo ≠ BlockMaps by decide),
    if_neg (show BlockVideo ≠ BlockCodepen by decide),
    if_neg (show BlockVideo ≠ BlockTweet by decide),
    if_pos rfl]

theorem renderBlockDefault_audioBlock (ctx : Ctx) (anc : List Block) (st : St)
    {b : Block} (h : b.typ = BlockAudio) :
    renderBlockDefault ctx anc st b = renderAudioVideo ctx anc st b := by
  rw [renderBlockDefault, h]
  rw [if_neg (show BlockAudio ≠ BlockPage by decide),
    if_neg (show BlockAudio ≠ BlockText by decide),
    if_neg (show BlockAudio ≠ BlockEquation by decide),
    if_neg (show BlockAudio ≠ BlockNumberedList by decide),
    if_neg (show BlockAudio ≠ BlockBulletedList by decide),
    if_neg (show BlockAudio ≠ BlockHeader by decide),
    if_neg (show BlockAudio ≠ BlockSubHeader by decide),
    if_neg (show BlockAudio ≠ BlockSubSubHeader by decide),
    if_neg (show BlockAudio ≠ BlockTodo by decide),
    if_neg (show BlockAudio ≠ BlockToggle by decide),
    if_neg (show BlockAudio ≠ BlockQuote by decide),
    if_neg (show BlockAudio ≠ BlockDivider by decide),
    if_neg (show BlockAudio ≠ BlockCode by decide),
    if_neg (show BlockAudio ≠ BlockBookmark by decide),
    if_neg (show BlockAudio ≠ BlockImage by decide),
    if_neg (show BlockAudio ≠ BlockColumnList by decide),
    if_neg (show BlockAudio ≠ BlockColumn by decide),
    if_neg (show BlockAudio ≠ BlockCollectionView by decide),
    if_neg (show BlockAudio ≠ BlockCollectionViewPage by decide),
    if_neg (show BlockAudio ≠ BlockEmbed by decide),
    if_neg (show BlockAudio ≠ BlockGist by decide),
    if_neg (show BlockAudio ≠ BlockMaps by decide),
    if_neg (show BlockAudio ≠ BlockCodepen by decide),
    if_neg (show BlockAudio ≠ BlockTweet by decide),
    if_neg (show BlockAudio ≠ BlockVideo by decide),
    if_pos rfl]

theorem renderBlockDefault_fileBlock (ctx : Ctx) (anc : List Block) (st : St)
    {b : Block} (h : b.typ = BlockFile) :
    renderBlockDefault ctx anc st b = renderFile ctx anc st b := by
  rw [renderBlockDefault, h]
  rw [if_neg (show BlockFile ≠ BlockPage by decide),
    if_neg (show BlockFile ≠ BlockText by decide),
    if_neg (show BlockFile ≠ BlockEquation by decide),
    if_neg (show BlockFile ≠ BlockNumberedList by decide),
    if_neg (show BlockFile ≠ BlockBulletedList by decide),
    if_neg (show BlockFile ≠ BlockHeader by decide),
    if_neg (show BlockFile ≠ BlockSubHeader by decide),
    if_neg (show BlockFile ≠ BlockSubSubHeader by decide),
    if_neg (show BlockFile ≠ BlockTodo by decide),
    if_neg (show BlockFile ≠ BlockToggle by decide),
    if_neg (show BlockFile ≠ BlockQuote by decide),
    if_neg (show BlockFile ≠ BlockDivider by decide),
    if_neg (show BlockFile ≠ BlockCode by decide),
    if_neg (show BlockFile ≠ BlockBookmark by decide),
    if_neg (show BlockFile ≠ BlockImage by decide),
    if_neg (show BlockFile ≠ BlockColumnList by decide),
    if_neg (show BlockFile ≠ BlockColumn by decide),
    if_neg (show BlockFile ≠ BlockCollectionView by decide),
    if_neg (show BlockFile ≠ BlockCollectionViewPage by decide),
    if_neg (show BlockFile ≠ BlockEmbed by decide),
    if_neg (show BlockFile ≠ BlockGist by decide),
    if_neg (show BlockFile ≠ BlockMaps by decide),
    if_neg (show BlockFile ≠ BlockCodepen by decide),
    if_neg (show BlockFile ≠ BlockTweet by decide),
    if_neg (show BlockFile ≠ BlockVideo by decide),
    if_neg (show BlockFile ≠ BlockAudio by decide),
    if_pos rfl]

theorem renderBlockDefault_drive (ctx : Ctx) (anc : List Block) (st : St)
    {b : Block} (h : b.typ = BlockDrive) :
    renderBlockDefault ctx anc st b = renderDrive ctx st b := by
  rw [renderBlockDefault, h]
  rw [if_neg (show BlockDrive ≠ BlockPage by decide),
    if_neg (show BlockDrive ≠ BlockText by decide),
    if_neg (show BlockDrive ≠ BlockEquation by decide),
    if_neg (show BlockDrive ≠ BlockNumberedList by decide),
    if_neg (show BlockDrive ≠ BlockBulletedList by decide),
    if_neg (show BlockDrive ≠ BlockHeader by decide),
    if_neg (show BlockDrive ≠ BlockSubHeader by decide),
    if_neg (show BlockDrive ≠ BlockSubSubHeader by decide),
    if_neg (show BlockDrive ≠ BlockTodo by decide),
    if_neg (show BlockDrive ≠ BlockToggle by decide),
    if_neg (show BlockDrive ≠ BlockQuote by decide),
    if_neg (show BlockDrive ≠ BlockDivider by decide),
    if_neg (show BlockDrive ≠ BlockCode by decide),
    if_neg (show BlockDrive ≠ BlockBookmark by decide),
    if_neg (show BlockDrive ≠ BlockImage by decide),
    if_neg (show BlockDrive ≠ BlockColumnList by decide),
    if_neg (show BlockDrive ≠ BlockColumn by decide),
    if_neg (show BlockDrive ≠ BlockCollectionView by decide),
    if_neg (show BlockDrive ≠ BlockCollectionViewPage by decide),
    if_neg (show BlockDrive ≠ BlockEmbed by decide),
    if_neg (show BlockDrive ≠ BlockGist by decide),
    if_neg (show BlockDrive ≠ BlockMaps by decide),
    if_neg (show BlockDrive ≠ BlockCodepen by decide),
    if_neg (show BlockDrive ≠ BlockTweet by decide),
    if_neg (show BlockDrive ≠ BlockVideo by decide),
    if_neg (show BlockDrive ≠ BlockAudio by decide),
    if_neg (show BlockDrive ≠ BlockFile by decide),
    if_pos rfl]

theorem renderBlockDefault_figma (ctx : Ctx) (anc : List Block) (st : St)
    {b : Block} (h : b.typ = BlockFigma) :
    renderBlockDefault ctx anc st b = renderFigma ctx st b := by
  rw [renderBlockDefault, h]
  rw [if_neg (show BlockFigma ≠ BlockPage by decide),
    if_neg (show BlockFigma ≠ BlockText by decide),
    if_neg (show BlockFigma ≠ BlockEquation by decide),
    if_neg (show BlockFigma ≠ BlockNumberedList by decide),
    if_neg (show BlockFigma ≠ BlockBulletedList by decide),
    if_neg (show BlockFigma ≠ BlockHeader by decide),
    if_neg (show BlockFigma ≠ BlockSubHeader by decide),
    if_neg (show BlockFigma ≠ BlockSubSubHeader by decide),
    if_neg (show BlockFigma ≠ BlockTodo by decide),
    if_neg (show BlockFigma ≠ BlockToggle by decide),
    if_neg (show BlockFigma ≠ BlockQuote by decide),
    if_neg (show BlockFigma ≠ BlockDivider by decide),
    if_neg (show BlockFigma ≠ BlockCode by decide),
    if_neg (show BlockFigma ≠ BlockBookmark by decide),
    if_neg (show BlockFigma ≠ BlockImage by decide),
    if_neg (show BlockFigma ≠ BlockColumnList by decide),
    if_neg (show BlockFigma ≠ BlockColumn by decide),
    if_neg (show BlockFigma ≠ BlockCollectionView by decide),
    if_neg (show BlockFigma ≠ BlockCollectionViewPage by decide),
    if_neg (show BlockFigma ≠ BlockEmbed by decide),
    if_neg (show BlockFigma ≠ BlockGist by decide),
    if_neg (show BlockFigma ≠ BlockMaps by decide),
    if_neg (show BlockFigma ≠ BlockCodepen by decide),
    if_neg (show BlockFigma ≠ BlockTweet by decide),
    if_neg (show BlockFigma ≠ BlockVideo by decide),
    if_neg (show BlockFigma ≠ BlockAudio by decide),
    if_neg (show BlockFigma ≠ BlockFile by decide),
    if_neg (show BlockFigma ≠ BlockDrive by decide),
    if_pos rfl]

theorem renderBlockDefault_pdf (ctx : Ctx) (anc : List Block) (st : St)
    {b : Block} (h : b.typ = BlockPDF) :
    renderBlockDefault ctx anc st b = renderPDF ctx anc st b := by
  rw [renderBlockDefault, h]
  rw [if_neg (show BlockPDF ≠ BlockPage by decide),
    if_neg (show BlockPDF ≠ BlockText by decide),
    if_neg (show BlockPDF ≠ BlockEquation by decide),
    if_neg (show BlockPDF ≠ BlockNumberedList by decide),
    if_neg (show BlockPDF ≠ BlockBulletedList by decide),
    if_neg (show BlockPDF ≠ BlockHeader by decide),
    if_neg (show BlockPDF ≠ BlockSubHeader by decide),
    if_neg (show BlockPDF ≠ BlockSubSubHeader by decide),
    if_neg (show BlockPDF ≠ BlockTodo by decide),
    if_neg (show BlockPDF ≠ BlockToggle by decide),
    if_neg (show BlockPDF ≠ BlockQuote by decide),
    if_neg (show BlockPDF ≠ BlockDivider by decide),
    if_neg (show BlockPDF ≠ BlockCode by decide),
    if_neg (show BlockPDF ≠ BlockBookmark by decide),
    if_neg (show BlockPDF ≠ BlockImage by decide),
    if_neg (show BlockPDF ≠ BlockColumnList by decide),
    if_neg (show BlockPDF ≠ BlockColumn by decide),
    if_neg (show BlockPDF ≠ BlockCollectionView by decide),
    if_neg (show BlockPDF ≠ BlockCollectionViewPage by decide),
    if_neg (show BlockPDF ≠ BlockEmbed by decide),
    if_neg (show BlockPDF ≠ BlockGist by decide),
    if_neg (show BlockPDF ≠ BlockMaps by decide),
    if_neg (show BlockPDF ≠ BlockCodepen by decide),
    if_neg (show BlockPDF ≠ BlockTweet by decide),
    if_neg (show BlockPDF ≠ BlockVideo by decide),
    if_neg (show BlockPDF ≠ BlockAudio by decide),
    if_neg (show BlockPDF ≠ BlockFile by decide),
    if_neg (show BlockPDF ≠ BlockDrive by decide),
    if_neg (show BlockPDF ≠ BlockFigma by decide),
    if_pos rfl]

theorem renderBlockDefault_callout (ctx : Ctx) (anc : List Block) (st : St)
    {b : Block} (h : b.typ = BlockCallout) :
    renderBlockDefault ctx anc st b = renderCallout ctx st b := by
  rw [renderBlockDefault, h]
  rw [if_neg (show BlockCallout ≠ BlockPage by decide),
    if_neg (show BlockCallout ≠ BlockText by decide),
    if_neg (show BlockCallout ≠ BlockEquation by decide),
    if_neg (show BlockCallout ≠ BlockNumberedList by decide),
    if_neg (show BlockCallout ≠ BlockBulletedList by decide),
    if_neg (show BlockCallout ≠ BlockHeader by decide),
    if_neg (show BlockCallout ≠ BlockSubHeader by decide),
    if_neg (show BlockCallout ≠ BlockSubSubHeader by decide),
    if_neg (show BlockCallout ≠ BlockTodo by decide),
    if_neg (show BlockCallout ≠ BlockToggle by decide),
    if_neg (show BlockCallout ≠ BlockQuote by decide),
    if_neg (show BlockCallout ≠ BlockDivider by decide),
    if_neg (show BlockCallout ≠ BlockCode by decide),
    if_neg (show BlockCallout ≠ BlockBookmark by decide),
    if_neg (show BlockCallout ≠ BlockImage by decide),
    if_neg (show BlockCallout ≠ BlockColumnList by decide),
    if_neg (show BlockCallout ≠ BlockColumn by decide),
    if_neg (show BlockCallout ≠ BlockCollectionView by decide),
    if_neg (show BlockCallout ≠ BlockCollectionViewPage by decide),
    if_neg (show BlockCallout ≠ BlockEmbed by decide),
    if_neg (show BlockCallout ≠ BlockGist by decide),
    if_neg (show BlockCallout ≠ BlockMaps by decide),
    if_neg (show BlockCallout ≠ BlockCodepen by decide),
    if_neg (show BlockCallout ≠ BlockTweet by decide),
    if_neg (show BlockCallout ≠ BlockVideo by decide),
    if_neg (show BlockCallout ≠ BlockAudio by decide),
    if_neg (show BlockCallout ≠ BlockFile by decide),
    if_neg (show BlockCallout ≠ BlockDrive by decide),
    if_neg (show BlockCallout ≠ BlockFigma by decide),
    if_neg (show BlockCallout ≠ BlockPDF by decide),
    if_pos rfl]

theorem renderBlockDefault_toc (ctx : Ctx) (anc : List Block) (st : St)
    {b : Block} (h : b.typ = BlockTableOfContents) :
    renderBlockDefault ctx anc st b = renderTableOfContents ctx st b := by
  rw [renderBlockDefault, h]
  rw [if_neg (show BlockTableOfContents ≠ BlockPage by decide),
    if_neg (show BlockTableOfContents ≠ BlockText by decide),
    if_neg (show BlockTableOfContents ≠ BlockEquation by decide),
    if_neg (show BlockTableOfContents ≠ BlockNumberedList by decide),
    if_neg (show BlockTableOfContents ≠ BlockBulletedList by decide),
    if_neg (show BlockTableOfContents ≠ BlockHeader by decide),
    if_neg (show BlockTableOfContents ≠ BlockSubHeader by decide),
    if_neg (show BlockTableOfContents ≠ BlockSubSubHeader by decide),
    if_neg (show BlockTableOfContents ≠ BlockTodo by decide),
    if_neg (show BlockTableOfContents ≠ BlockToggle by decide),
    if_neg (show BlockTableOfContents ≠ BlockQuote by decide),
    if_neg (show BlockTableOfContents ≠ BlockDivider by decide),
    if_neg (show BlockTableOfContents ≠ BlockCode by decide),
    if_neg (show BlockTableOfContents ≠ BlockBookmark by decide),
    if_neg (show BlockTableOfContents ≠ BlockImage by decide),
    if_neg (show BlockTableOfContents ≠ BlockColumnList by decide),
    if_neg (show BlockTableOfContents ≠ BlockColumn by decide),
    if_neg (show BlockTableOfContents ≠ BlockCollectionView by decide),
    if_neg (show BlockTableOfContents ≠ BlockCollectionViewPage by decide),
    if_neg (show BlockTableOfContents ≠ BlockEmbed by decide),
    if_neg (show BlockTableOfContents ≠ BlockGist by decide),
    if_neg (show BlockTableOfContents ≠ BlockMaps by decide),
    if_neg (show BlockTableOfContents ≠ BlockCodepen by decide),
    if_neg (show BlockTableOfContents ≠ BlockTweet by decide),
    if_neg (show BlockTableOfContents ≠ BlockVideo by decide),
    if_neg (show BlockTableOfContents ≠ BlockAudio by decide),
    if_neg (show BlockTableOfContents ≠ BlockFile by decide),
    if_neg (show BlockTableOfContents ≠ BlockDrive by decide),
    if_neg (show BlockTableOfContents ≠ BlockFigma by decide),
    if_neg (show BlockTableOfContents ≠ BlockPDF by decide),
    if_neg (show BlockTableOfContents ≠ BlockCallout by decide),
    if_pos rfl]

theorem renderBlockDefault_breadcrumbBlock (ctx : Ctx) (anc : List Block) (st : St)
    {b : Block} (h : b.typ = BlockBreadcrumb) :
    renderBlockDefault ctx anc st b = renderBreadcrumb ctx st b := by
  rw [renderBlockDefault, h]
  rw [if_neg (show BlockBreadcrumb ≠ BlockPage by decide),
    if_neg (show BlockBreadcrumb ≠ BlockText by decide),
    if_neg (show BlockBreadcrumb ≠ BlockEquation by decide),
    if_neg (show BlockBreadcrumb ≠ BlockNumberedList by decide),
    if_neg (show BlockBreadcrumb ≠ BlockBulletedList by decide),
    if_neg (show BlockBreadcrumb ≠ BlockHeader by decide),
    if_neg (show BlockBreadcrumb ≠ BlockSubHeader by decide),
    if_neg (show BlockBreadcrumb ≠ BlockSubSubHeader by decide),
    if_neg (show BlockBreadcrumb ≠ BlockTodo by decide),
    if_neg (show BlockBreadcrumb ≠ BlockToggle by decide),
    if_neg (show BlockBreadcrumb ≠ BlockQuote by decide),
    if_neg (show BlockBreadcrumb ≠ BlockDivider by decide),
    if_neg (show BlockBreadcrumb ≠ BlockCode by decide),
    if_neg (show BlockBreadcrumb ≠ BlockBookmark by decide),
    if_neg (show BlockBreadcrumb ≠ BlockImage by decide),
    if_neg (show BlockBreadcrumb ≠ BlockColumnList by decide),
    if_neg (show BlockBreadcrumb ≠ BlockColumn by decide),
    if_neg (show BlockBreadcrumb ≠ BlockCollectionView by decide),
    if_neg (show BlockBreadcrumb ≠ BlockCollectionViewPage by decide),
    if_neg (show BlockBreadcrumb ≠ BlockEmbed by decide),
    if_neg (show BlockBreadcrumb ≠ BlockGist by decide),
    if_neg (show BlockBreadcrumb ≠ BlockMaps by decide),
    if_neg (show BlockBreadcrumb ≠ BlockCodepen by decide),
    if_neg (show BlockBreadcrumb ≠ BlockTweet by decide),
    if_neg (show BlockBreadcrumb ≠ BlockVideo by decide),
    if_neg (show BlockBreadcrumb ≠ BlockAudio by decide),
    if_neg (show BlockBreadcrumb ≠ BlockFile by decide),
    if_neg (show BlockBreadcrumb ≠ BlockDrive by decide),
    if_neg (show BlockBreadcrumb ≠ BlockFigma by decide),
    if_neg (show BlockBreadcrumb ≠ BlockPDF by decide),
    if_neg (show BlockBreadcrumb ≠ BlockCallout by decide),
    if_neg (show BlockBreadcrumb ≠ BlockTableOfContents by decide),
    if_pos rfl]

theorem renderBlockDefault_other (ctx : Ctx) (anc : List Block) (st : St)
    {b : Block}
    (h1 : b.typ ≠ BlockPage) (h2 : b.typ ≠ BlockText) (h3 : b.typ ≠ BlockEquation)
    (h4 : b.typ ≠ BlockNumberedList) (h5 : b.typ ≠ BlockBulletedList) (h6 : b.typ ≠ BlockHeader)
    (h7 : b.typ ≠ BlockSubHeader) (h8 : b.typ ≠ BlockSubSubHeader) (h9 : b.typ ≠ BlockTodo)
    (h10 : b.typ ≠ BlockToggle) (h11 : b.typ ≠ BlockQuote) (h12 : b.typ ≠ BlockDivider)
    (h13 : b.typ ≠ BlockCode) (h14 : b.typ ≠ BlockBookmark) (h15 : b.typ ≠ BlockImage)
    (h16 : b.typ ≠ BlockColumnList) (h17 : b.typ ≠ BlockColumn) (h18 : b.typ ≠ BlockCollectionView)
    (h19 : b.typ ≠ BlockCollectionViewPage) (h20 : b.typ ≠ BlockEmbed) (h21 : b.typ ≠ BlockGist)
    (h22 : b.typ ≠ BlockMaps) (h23 : b.typ ≠ BlockCodepen) (h24 : b.typ ≠ BlockTweet)
    (h25 : b.typ ≠ BlockVideo) (h26 : b.typ ≠ BlockAudio) (h27 : b.typ ≠ BlockFile)
    (h28 : b.typ ≠ BlockDrive) (h29 : b.typ ≠ BlockFigma) (h30 : b.typ ≠ BlockPDF)
    (h31 : b.typ ≠ BlockCallout) (h32 : b.typ ≠ BlockTableOfContents) (h33 : b.typ ≠ BlockBreadcrumb)
    : renderBlockDefault ctx anc st b = st := by
  rw [renderBlockDefault]
  rw [if_neg h1,
    if_neg h2,
    if_neg h3,
    if_neg h4,
    if_neg h5,
    if_neg h6,
    if_neg h7,
    if_neg h8,
    if_neg h9,
    if_neg h10,
    if_neg h11,
    if_neg h12,
    if_neg h13,
    if_neg h14,
    if_neg h15,
    if_neg h16,
    if_neg h17,
    if_neg h18,
    if_neg h19,
    if_neg h20,
    if_neg h21,
    if_neg h22,
    if_neg h23,
    if_neg h24,
    if_neg h25,
    if_neg h26,
    if_neg h27,
    if_neg h28,
    if_neg h29,
    if_neg h30,
    if_neg h31,
    if_neg h32,
    if_neg h33]

set_option maxHeartbeats 4000000 in
/-- The frame behaviour of the renderer, by strong induction on block size:
with no override hook, `RenderBlock` only appends to the output buffer and
preserves the buffer stack and the active-sibling state; and any rendering
step whose blocks contain no numbered-list block anywhere leaves the
numbered-list counter unchanged. -/
theorem renderFrame (ctx : Ctx) (hov : ctx.renderBlockOverride = none) :
    ∀ n : Nat,
      (∀ bs : List Block, sizeOf bs ≤ n →
        ∀ (i : Nat) (anc : List Block) (st : St),
        ((∃ s, (renderList ctx anc st bs i).buf = st.buf ++ s)
          ∧ (renderList ctx anc st bs i).bufs = st.bufs
          ∧ (renderList ctx anc st bs i).currBlocks = st.currBlocks)
        ∧ (subtreeNoNumbered bs = true →
            (renderList ctx anc st bs i).listNo = st.listNo))
    ∧ (∀ b : Block, sizeOf b ≤ n → ∀ (anc : List Block) (st : St),
        quasiTame st (renderChildren ctx anc st b)
        ∧ (subtreeNoNumbered b.content = true →
            (renderChildren ctx anc st b).listNo = st.listNo))
    ∧ (∀ b : Block, sizeOf b ≤ n → ∀ (anc : List Block) (st : St),
        quasiTame st (renderBlock ctx anc st b)
        ∧ (b.typ ≠ BlockNumberedList → subtreeNoNumbered b.content = true →
            (renderBlock ctx anc st b).listNo = st.listNo)) := by
  intro n
  induction n using Nat.strong_induction_on with
  | _ n ih =>
    have HL : ∀ bs : List Block, sizeOf bs ≤ n →
        ∀ (i : Nat) (anc : List Block) (st : St),
        ((∃ s, (renderList ctx anc st bs i).buf = st.buf ++ s)
          ∧ (renderList ctx anc st bs i).bufs = st.bufs
          ∧ (renderList ctx anc st bs i).currBlocks = st.currBlocks)
        ∧ (subtreeNoNumbered bs = true →
            (renderList ctx anc st bs i).listNo = st.listNo) := by
      intro bs hsz i anc st
      match bs with
      | [] =>
        rw [renderList]
        exact ⟨⟨⟨"", by simp⟩, rfl, rfl⟩, fun _ => rfl⟩
      | child :: rest =>
        have hspec : sizeOf (child :: rest) = 1 + sizeOf child + sizeOf rest :=
          List.cons.sizeOf_spec child rest
        have hszc : sizeOf child < n := by omega
        have hszr : sizeOf rest < n := by omega
        have Hchild := ((ih (sizeOf child) hszc).2.2) child (Nat.le_refl _) anc
          { st with currBlockIdx := i }
        have Hrest := ((ih (sizeOf rest) hszr).1) rest (Nat.le_refl _) (i + 1)
          anc (renderBlock ctx anc { st with currBlockIdx := i } child)
        obtain ⟨⟨⟨s1, hb1⟩, hbufs1, hcurr1, hidx1⟩, hln1⟩ := Hchild
        obtain ⟨⟨⟨s2, hb2⟩, hbufs2, hcurr2⟩, hln2⟩ := Hrest
        rw [renderList]
        refine ⟨⟨⟨s1 ++ s2, ?_⟩, ?_, ?_⟩, ?_⟩
        · simp only [hb2, hb1]
          simp [String.append_assoc]
        · simp only [hbufs2, hbufs1]
        · simp only [hcurr2, hcurr1]
        · intro hno
          obtain ⟨ht, hc, hr⟩ := subtreeNoNumbered_cons hno
          simp only [hln2 hr, hln1 ht hc]
    have HC : ∀ b : Block, sizeOf b ≤ n → ∀ (anc : List Block) (st : St),
        quasiTame st (renderChildren ctx anc st b)
        ∧ (subtreeNoNumbered b.content = true →
            (renderChildren ctx anc st b).listNo = st.listNo) := by
      intro b hsz anc st
      have hlt : sizeOf b.content ≤ n :=
        le_of_lt (lt_of_lt_of_le (sizeOf_content_lt b) hsz)
      rw [renderChildren]
      split
      · exact ⟨quasiTame_refl st, fun _ => rfl⟩
      · dsimp only
        by_cases hdi : needsIndent b = true
        · rw [if_pos hdi, if_pos hdi]
          have HH := HL b.content hlt 0 (b :: anc)
            { printf st "<div class=\"indented\">" with currBlocks := b.content }
          simp only [printf] at HH
          obtain ⟨⟨⟨s, hbuf⟩, hbufs, hcurr⟩, hln⟩ := HH
          constructor
          · refine ⟨⟨"<div class=\"indented\">" ++ s ++ "</div>", ?_⟩, ?_, ?_, ?_⟩
            · simp [printf, hbuf, String.append_assoc]
            · simp [printf, hbufs]
            · simp [printf]
            · simp [printf]
          · intro hnn
            simp [printf, hln hnn]
        · rw [if_neg hdi, if_neg hdi]
          obtain ⟨⟨⟨s, hbuf⟩, hbufs, hcurr⟩, hln⟩ := HL b.content hlt 0 (b :: anc)
            { st with currBlocks := b.content }
          constructor
          · exact ⟨⟨s, by simpa using hbuf⟩, by simpa using hbufs, rfl, rfl⟩
          · intro hnn
            simpa using hln hnn
    have HB : ∀ b : Block, sizeOf b ≤ n → ∀ (anc : List Block) (st : St),
        quasiTame st (renderBlock ctx anc st b)
        ∧ (b.typ ≠ BlockNumberedList → subtreeNoNumbered b.content = true →
            (renderBlock ctx anc st b).listNo = st.listNo) := by
      intro b hsz anc st
      rw [renderBlock, hov]
      dsimp only
      by_cases h1 : b.typ = BlockPage
      · rw [renderBlockDefault_page ctx anc st h1]
        rw [renderPage]
        split
        · rw [renderRootPage]
          dsimp only
          refine quasi_block_chain ctx anc b ?_ (HC b hsz anc _)
            (fun s => if ctx.fullHTML then
              printf (printf (printf s "</div>") "</article>") "</body></html>"
            else printf (printf s "</div>") "</article>") ?_
          · apply tame_printf_after
            apply tame_renderPageHeader_after
            apply tame_printf_after
            split
            · exact tame_printf_after _ (tame_printf_after _ (tame_printf_after _
                (tame_printf_after _ (tame_printf_after _ (tame_printf_after _
                  (tame_printf_after _ (tame_refl st)))))))
            · exact tame_refl st
          · intro s
            split
            · exact tame_printf_after _ (tame_printf_after _ (tame_printf_after _
                (tame_refl s)))
            · exact tame_printf_after _ (tame_printf_after _ (tame_refl s))
        · split
          · exact (fun h => ⟨h.1, fun _ _ => h.2⟩) (tame_renderLinkToPage ctx anc st b)
          · exact (fun h => ⟨h.1, fun _ _ => h.2⟩) (tame_renderLinkToPage ctx anc st b)
      · by_cases h2 : b.typ = BlockText
        · rw [renderBlockDefault_text ctx anc st h2]
          rw [renderText]
          exact quasi_block_chain ctx anc b
            (tame_renderInlines_after ctx _ (tame_printf_after _ (tame_refl st)))
            (HC b hsz anc _)
            (fun s => printf s "</p>")
            (fun s => tame_printf_after _ (tame_refl s))
        · by_cases h3 : b.typ = BlockEquation
          · rw [renderBlockDefault_equation ctx anc st h3]
            exact (fun h => ⟨h.1, fun _ _ => h.2⟩) (tame_renderEquation ctx st b)
          · by_cases h4 : b.typ = BlockNumberedList
            · rw [renderBlockDefault_numberedList ctx anc st h4]
              rw [renderNumberedList]
              refine ⟨?_, fun hne _ => absurd h4 hne⟩
              refine quasiTame_trans (show quasiTame st
                { st with listNo := numberedNo st } from ⟨⟨"", by simp⟩, rfl, rfl, rfl⟩) ?_
              refine quasiTame_trans (quasi_of_tame
                (tame_renderInlines_after ctx b.inline
                  (tame_printf_after "<li>"
                    (tame_printf_after (olOpenTag b (numberedNo st))
                      (tame_refl { st with listNo := numberedNo st }))))) ?_
              exact quasiTame_trans (HC b hsz anc _).1
                (quasi_of_tame (tame_printf_after _ (tame_printf_after _ (tame_refl _))))
            · by_cases h5 : b.typ = BlockBulletedList
              · rw [renderBlockDefault_bulletedList ctx anc st h5]
                rw [renderBulletedList]
                exact quasi_block_chain ctx anc b
                  (tame_renderInlines_after ctx _ (tame_printf_after _
                    (tame_printf_after _ (tame_refl st))))
                  (HC b hsz anc _)
                  (fun s => printf (printf s "</li>") "</ul>")
                  (fun s => tame_printf_after _ (tame_printf_after _ (tame_refl s)))
              · by_cases h6 : b.typ = BlockHeader
                · rw [renderBlockDefault_header ctx anc st h6]
                  exact (fun h => ⟨h.1, fun _ _ => h.2⟩) (tame_renderHeaderLevel ctx st b 1)
                · by_cases h7 : b.typ = BlockSubHeader
                  · rw [renderBlockDefault_subHeader ctx anc st h7]
                    exact (fun h => ⟨h.1, fun _ _ => h.2⟩) (tame_renderHeaderLevel ctx st b 2)
                  · by_cases h8 : b.typ = BlockSubSubHeader
                    · rw [renderBlockDefault_subSubHeader ctx anc st h8]
                      exact (fun h => ⟨h.1, fun _ _ => h.2⟩) (tame_renderHeaderLevel ctx st b 3)
                    · by_cases h9 : b.typ = BlockTodo
                      · rw [renderBlockDefault_todo ctx anc st h9]
                        rw [renderTodo]
                        exact quasi_block_chain ctx anc b
                          (tame_renderTodoOpen_after ctx b (tame_refl st))
                          (HC b hsz anc _)
                          (fun s => printf (printf s "</li>") "</ul>")
                          (fun s => tame_printf_after _ (tame_printf_after _ (tame_refl s)))
                      · by_cases h10 : b.typ = BlockToggle
                        · rw [renderBlockDefault_toggle ctx anc st h10]
                          rw [renderToggle]
                          exact quasi_block_chain ctx anc b
                            (tame_printf_after _ (tame_renderInlines_after ctx _
                              (tame_printf_after _ (tame_printf_after _ (tame_printf_after _
                                (tame_printf_after _ (tame_refl st)))))))
                            (HC b hsz anc _)
                            (fun s => printf (printf (printf s "</details>")
                              "</li>") "</ul>")
                            (fun s => tame_printf_after _ (tame_printf_after _
                              (tame_printf_after _ (tame_refl s))))
                        · by_cases h11 : b.typ = BlockQuote
                          · rw [renderBlockDefault_quote ctx anc st h11]
                            rw [renderQuote]
                            exact quasi_block_chain ctx anc b
                              (tame_renderInlines_after ctx _ (tame_printf_after _ (tame_refl st)))
                              (HC b hsz anc _)
                              (fun s => printf s "</blockquote>")
                              (fun s => tame_printf_after _ (tame_refl s))
                          · by_cases h12 : b.typ = BlockDivider
                            · rw [renderBlockDefault_divider ctx anc st h12]
                              exact (fun h => ⟨h.1, fun _ _ => h.2⟩) (tame_renderDivider st b)
                            · by_cases h13 : b.typ = BlockCode
                              · rw [renderBlockDefault_codeBlock ctx anc st h13]
                                exact (fun h => ⟨h.1, fun _ _ => h.2⟩) (tame_renderCode st b)
                              · by_cases h14 : b.typ = BlockBookmark
                                · rw [renderBlockDefault_bookmark ctx anc st h14]
                                  exact (fun h => ⟨h.1, fun _ _ => h.2⟩) (tame_renderBookmark ctx st b)
                                · by_cases h15 : b.typ = BlockImage
                                  · rw [renderBlockDefault_image ctx anc st h15]
                                    exact (fun h => ⟨h.1, fun _ _ => h.2⟩) (tame_renderImage ctx anc st b)
                                  · by_cases h16 : b.typ = BlockColumnList
                                    · rw [renderBlockDefault_columnList ctx anc st h16]
                                      rw [renderColumnList]
                                      split
                                      · exact ⟨quasiTame_refl st, fun _ _ => rfl⟩
                                      · exact quasi_block_chain ctx anc b
                                          (tame_printf_after _ (tame_refl st))
                                          (HC b hsz anc _)
                                          (fun s => printf s "</div>")
                                          (fun s => tame_printf_after _ (tame_refl s))
                                    · by_cases h17 : b.typ = BlockColumn
                                      · rw [renderBlockDefault_column ctx anc st h17]
                                        rw [renderColumn]
                                        exact quasi_block_chain ctx anc b
                                          (tame_printf_after _ (tame_refl st))
                                          (HC b hsz anc _)
                                          (fun s => printf s "</div>")
                                          (fun s => tame_printf_after _ (tame_refl s))
                                      · by_cases h18 : b.typ = BlockCollectionView
                                        · rw [renderBlockDefault_collectionView ctx anc st h18]
                                          exact (fun h => ⟨h.1, fun _ _ => h.2⟩) (tame_renderCollectionView ctx anc st b)
                                        · by_cases h19 : b.typ = BlockCollectionViewPage
                                          · rw [renderBlockDefault_collectionViewPage ctx anc st h19]
                                            exact (fun h => ⟨h.1, fun _ _ => h.2⟩) (tame_renderCollectionViewPage ctx st b)
                                          · by_cases h20 : b.typ = BlockEmbed
                                            · rw [renderBlockDefault_embed ctx anc st h20]
                                              exact (fun h => ⟨h.1, fun _ _ => h.2⟩) (tame_renderEmbedBlock ctx anc st b)
                                            · by_cases h21 : b.typ = BlockGist
                                              · rw [renderBlockDefault_gist ctx anc st h21]
                                                exact (fun h => ⟨h.1, fun _ _ => h.2⟩) (tame_renderEmbedHelper ctx st b)
                                              · by_cases h22 : b.typ = BlockMaps
                                                · rw [renderBlockDefault_maps ctx anc st h22]
                                                  exact (fun h => ⟨h.1, fun _ _ => h.2⟩) (tame_renderEmbedHelper ctx st b)
                                                · by_cases h23 : b.typ = BlockCodepen
                                                  · rw [renderBlockDefault_codepen ctx anc st h23]
                                                    exact (fun h => ⟨h.1, fun _ _ => h.2⟩) (tame_renderEmbedHelper ctx st b)
                                                  · by_cases h24 : b.typ = BlockTweet
                                                    · rw [renderBlockDefault_tweet ctx anc st h24]
                                                      exact (fun h => ⟨h.1, fun _ _ => h.2⟩) (tame_renderEmbedHelper ctx st b)
                                                    · by_cases h25 : b.typ = BlockVideo
                                                      · rw [renderBlockDefault_video ctx anc st h25]
                                                        exact (fun h => ⟨h.1, fun _ _ => h.2⟩) (tame_renderAudioVideo ctx anc st b)
                                                      · by_cases h26 : b.typ = BlockAudio
                                                        · rw [renderBlockDefault_audioBlock ctx anc st h26]
                                                          exact (fun h => ⟨h.1, fun _ _ => h.2⟩) (tame_renderAudioVideo ctx anc st b)
                                                        · by_cases h27 : b.typ = BlockFile
                                                          · rw [renderBlockDefault_fileBlock ctx anc st h27]
                                                            exact (fun h => ⟨h.1, fun _ _ => h.2⟩) (tame_renderFile ctx anc st b)
                                                          · by_cases h28 : b.typ = BlockDrive
                                                            · rw [renderBlockDefault_drive ctx anc st h28]
                                                              exact (fun h => ⟨h.1, fun _ _ => h.2⟩) (tame_renderDrive ctx st b)
                                                            · by_cases h29 : b.typ = BlockFigma
                                                              · rw [renderBlockDefault_figma ctx anc st h29]
                                                                exact (fun h => ⟨h.1, fun _ _ => h.2⟩) (tame_renderFigma ctx st b)
                                                              · by_cases h30 : b.typ = BlockPDF
                                                                · rw [renderBlockDefault_pdf ctx anc st h30]
                                                                  exact (fun h => ⟨h.1, fun _ _ => h.2⟩) (tame_renderPDF ctx anc st b)
                                                                · by_cases h31 : b.typ = BlockCallout
                                                                  · rw [renderBlockDefault_callout ctx anc st h31]
                                                                    exact (fun h => ⟨h.1, fun _ _ => h.2⟩) (tame_renderCallout ctx st b)
                                                                  · by_cases h32 : b.typ = BlockTableOfContents
                                                                    · rw [renderBlockDefault_toc ctx anc st h32]
                                                                      exact (fun h => ⟨h.1, fun _ _ => h.2⟩) (tame_renderTableOfContents ctx st b)
                                                                    · by_cases h33 : b.typ = BlockBreadcrumb
                                                                      · rw [renderBlockDefault_breadcrumbBlock ctx anc st h33]
                                                                        exact (fun h => ⟨h.1, fun _ _ => h.2⟩) (tame_renderBreadcrumb ctx st b)
                                                                      · rw [renderBlockDefault_other ctx anc st
                                                                          h1 h2 h3 h4 h5 h6 h7 h8
                                                                          h9 h10 h11 h12 h13 h14 h15 h16
                                                                          h17 h18 h19 h20 h21 h22 h23 h24
                                                                          h25 h26 h27 h28 h29 h30 h31 h32
                                                                          h33]
                                                                        exact ⟨quasiTame_refl st, fun _ _ => rfl⟩
    exact ⟨HL, HC, HB⟩

/-! ## The numbered-list ordinal (claim C3) -/

/-- The single-block step of the numbered-list renderer, via the default
dispatch: the output gains the `<ol>` open tag carrying `numberedNo st` as
its `start` attribute, the counter is left at that ordinal when the
children renumber nothing, and the buffer stack and sibling state are
untouched. -/
theorem c3_step (ctx : Ctx) (hov : ctx.renderBlockOverride = none)
    (anc : List Block) (st : St) (b : Block)
    (hb : b.typ = BlockNumberedList) :
    (∃ rest, (renderBlock ctx anc st b).buf
        = st.buf ++ olOpenTag b (numberedNo st) ++ rest)
    ∧ (subtreeNoNumbered b.content = true →
        (renderBlock ctx anc st b).listNo = numberedNo st)
    ∧ (renderBlock ctx anc st b).bufs = st.bufs
    ∧ (renderBlock ctx anc st b).currBlocks = st.currBlocks
    ∧ (renderBlock ctx anc st b).currBlockIdx = st.currBlockIdx := by
  rw [renderBlock, hov]
  dsimp only
  rw [renderBlockDefault_numberedList ctx anc st hb]
  rw [renderNumberedList]
  obtain ⟨⟨⟨sIn, hbufIn⟩, hbufsIn, hcurrIn, hidxIn⟩, hlnIn⟩ :
      tame (printf (printf { st with listNo := numberedNo st }
        (olOpenTag b (numberedNo st))) "<li>")
      (renderInlines ctx (printf (printf { st with listNo := numberedNo st }
        (olOpenTag b (numberedNo st))) "<li>") b.inline) :=
    tame_renderInlines_after ctx b.inline (tame_refl _)
  obtain ⟨⟨⟨sCh, hbufCh⟩, hbufsCh, hcurrCh, hidxCh⟩, hlnCh⟩ :=
    ((renderFrame ctx hov (sizeOf b)).2.1) b (Nat.le_refl _) anc
      (renderInlines ctx (printf (printf { st with listNo := numberedNo st }
        (olOpenTag b (numberedNo st))) "<li>") b.inline)
  simp only [printf] at hbufIn hbufsIn hcurrIn hidxIn hlnIn hbufCh hbufsCh hcurrCh hidxCh hlnCh ⊢
  refine ⟨⟨"<li>" ++ sIn ++ sCh ++ "</li>" ++ "</ol>", ?_⟩, ?_, ?_, ?_, ?_⟩
  · rw [hbufCh, hbufIn]
    simp [String.append_assoc]
  · intro hnn
    rw [hlnCh hnn, hlnIn]
  · rw [hbufsCh, hbufsIn]
  · rw [hcurrCh, hcurrIn]
  · rw [hidxCh, hidxIn]

/-- A numbered-list block with no children, for the C3 witness. -/
def c3num : Block :=
  { blockStub with typ := BlockNumberedList }

/-- A plain text block, the non-numbered sibling of the C3 witness. -/
def c3txt : Block :=
  { blockStub with typ := BlockText }

/-- Claim C3 (confirmed): with no override hook, (a) rendering a
numbered-list block appends the `<ol>` tag whose `start` ordinal is the
previous ordinal plus one when the immediately preceding sibling is also a
numbered-list block and 1 otherwise, and leaves the running counter at that
ordinal; (b) three consecutive numbered-list siblings (with no
numbered-list descendants) emit ordinals 1, 2, 3; (c) a numbered-list
sibling immediately following a non-numbered-list sibling emits ordinal 1. -/
theorem c3_numbered_list_ordinals (ctx : Ctx)
    (hov : ctx.renderBlockOverride = none) :
    (∀ (anc : List Block) (st : St) (b : Block),
        b.typ = BlockNumberedList →
        subtreeNoNumbered b.content = true →
        (∃ rest, (renderBlock ctx anc st b).buf
            = st.buf
              ++ olOpenTag b (if isPrevBlockOfType st BlockNumberedList
                  then st.listNo + 1 else 1)
              ++ rest)
          ∧ (renderBlock ctx anc st b).listNo
              = (if isPrevBlockOfType st BlockNumberedList
                  then st.listNo + 1 else 1))
    ∧ (∀ (anc : List Block) (st : St) (b1 b2 b3 : Block),
        b1.typ = BlockNumberedList → b2.typ = BlockNumberedList →
        b3.typ = BlockNumberedList →
        subtreeNoNumbered b1.content = true →
        subtreeNoNumbered b2.content = true →
        subtreeNoNumbered b3.content = true →
        ∃ r1 r2 r3,
          (renderList ctx anc { st with currBlocks := [b1, b2, b3] }
              [b1, b2, b3] 0).buf
            = st.buf ++ olOpenTag b1 1 ++ r1 ++ olOpenTag b2 2 ++ r2
              ++ olOpenTag b3 3 ++ r3)
    ∧ (∀ (anc : List Block) (st : St) (c b : Block),
        c.typ ≠ BlockNumberedList → b.typ = BlockNumberedList →
        ∃ r1 r2,
          (renderList ctx anc { st with currBlocks := [c, b] } [c, b] 0).buf
            = st.buf ++ r1 ++ olOpenTag b 1 ++ r2) := by
  refine ⟨?_, ?_, ?_⟩
  · intro anc st b hb hnn
    obtain ⟨⟨rest, hbuf⟩, hln, _, _, _⟩ := c3_step ctx hov anc st b hb
    have hnum : numberedNo st
        = (if isPrevBlockOfType st BlockNumberedList then st.listNo + 1 else 1) :=
      rfl
    exact ⟨⟨rest, by rw [hbuf, hnum]⟩, by rw [hln hnn, hnum]⟩
  · intro anc st b1 b2 b3 hb1 hb2 hb3 hn1 hn2 hn3
    obtain ⟨⟨r1, hbuf1⟩, hln1, hbufs1, hcurr1, hidx1⟩ :=
      c3_step ctx hov anc { st with currBlocks := [b1, b2, b3], currBlockIdx := 0 } b1 hb1
    obtain ⟨⟨r2, hbuf2⟩, hln2, hbufs2, hcurr2, hidx2⟩ :=
      c3_step ctx hov anc { renderBlock ctx anc { st with currBlocks := [b1, b2, b3], currBlockIdx := 0 } b1 with currBlockIdx := 1 } b2 hb2
    obtain ⟨⟨r3, hbuf3⟩, hln3, hbufs3, hcurr3, hidx3⟩ :=
      c3_step ctx hov anc { renderBlock ctx anc { renderBlock ctx anc { st with currBlocks := [b1, b2, b3], currBlockIdx := 0 } b1 with currBlockIdx := 1 } b2 with currBlockIdx := 2 } b3 hb3
    have hN1 : numberedNo { st with currBlocks := [b1, b2, b3], currBlockIdx := 0 } = 1 := rfl
    have hprev2 : prevBlock { renderBlock ctx anc { st with currBlocks := [b1, b2, b3], currBlockIdx := 0 } b1 with currBlockIdx := 1 } = some b1 := by
      simp [prevBlock, hcurr1]
    have hp2 : isPrevBlockOfType { renderBlock ctx anc { st with currBlocks := [b1, b2, b3], currBlockIdx := 0 } b1 with currBlockIdx := 1 } BlockNumberedList = true := by
      simp only [isPrevBlockOfType, hprev2]
      rw [hb1]
      decide
    have hN2 : numberedNo { renderBlock ctx anc { st with currBlocks := [b1, b2, b3], currBlockIdx := 0 } b1 with currBlockIdx := 1 } = 2 := by
      rw [numberedNo, hp2, if_pos rfl]
      dsimp only
      rw [hln1 hn1, hN1]
      decide
    have hprev3 : prevBlock { renderBlock ctx anc { renderBlock ctx anc { st with currBlocks := [b1, b2, b3], currBlockIdx := 0 } b1 with currBlockIdx := 1 } b2 with currBlockIdx := 2 } = some b2 := by
      have hcb : ({ renderBlock ctx anc { renderBlock ctx anc { st with currBlocks := [b1, b2, b3], currBlockIdx := 0 } b1 with currBlockIdx := 1 } b2 with currBlockIdx := 2 }).currBlocks = [b1, b2, b3] := hcurr2.trans (hcurr1.trans rfl)
      rw [prevBlock, hcb]
      rfl
    have hp3 : isPrevBlockOfType { renderBlock ctx anc { renderBlock ctx anc { st with currBlocks := [b1, b2, b3], currBlockIdx := 0 } b1 with currBlockIdx := 1 } b2 with currBlockIdx := 2 } BlockNumberedList = true := by
      simp only [isPrevBlockOfType, hprev3]
      rw [hb2]
      decide
    have hN3 : numberedNo { renderBlock ctx anc { renderBlock ctx anc { st with currBlocks := [b1, b2, b3], currBlockIdx := 0 } b1 with currBlockIdx := 1 } b2 with currBlockIdx := 2 } = 3 := by
      rw [numberedNo, hp3, if_pos rfl]
      dsimp only
      rw [hln2 hn2, hN2]
      decide
    rw [hN1] at hbuf1
    rw [hN2] at hbuf2
    rw [hN3] at hbuf3
    refine ⟨r1, r2, r3, ?_⟩
    simp only [renderList]
    exact calc (renderBlock ctx anc { renderBlock ctx anc { renderBlock ctx anc { st with currBlocks := [b1, b2, b3], currBlockIdx := 0 } b1 with currBlockIdx := 1 } b2 with currBlockIdx := 2 } b3).buf
        _ = ({ renderBlock ctx anc { renderBlock ctx anc { st with currBlocks := [b1, b2, b3], currBlockIdx := 0 } b1 with currBlockIdx := 1 } b2 with currBlockIdx := 2 }).buf ++ olOpenTag b3 3 ++ r3 := hbuf3
        _ = (renderBlock ctx anc { renderBlock ctx anc { st with currBlocks := [b1, b2, b3], currBlockIdx := 0 } b1 with currBlockIdx := 1 } b2).buf ++ olOpenTag b3 3 ++ r3 := rfl
        _ = (({ renderBlock ctx anc { st with currBlocks := [b1, b2, b3], currBlockIdx := 0 } b1 with currBlockIdx := 1 }).buf ++ olOpenTag b2 2 ++ r2) ++ olOpenTag b3 3 ++ r3 := by
              rw [hbuf2]
        _ = ((renderBlock ctx anc { st with currBlocks := [b1, b2, b3], currBlockIdx := 0 } b1).buf ++ olOpenTag b2 2 ++ r2) ++ olOpenTag b3 3 ++ r3 := rfl
        _ = ((({ st with currBlocks := [b1, b2, b3], currBlockIdx := 0 }).buf ++ olOpenTag b1 1 ++ r1) ++ olOpenTag b2 2 ++ r2)
              ++ olOpenTag b3 3 ++ r3 := by
              rw [hbuf1]
        _ = st.buf ++ olOpenTag b1 1 ++ r1 ++ olOpenTag b2 2 ++ r2
              ++ olOpenTag b3 3 ++ r3 := by
              simp [String.append_assoc]
  · intro anc st c b hc hb
    obtain ⟨⟨⟨s1, hbuf1⟩, hbufs1, hcurr1, hidx1⟩, _⟩ :=
      ((renderFrame ctx hov (sizeOf c)).2.2) c (Nat.le_refl _) anc { st with currBlocks := [c, b], currBlockIdx := 0 }
    obtain ⟨⟨r2, hbuf2⟩, hln2, hbufs2, hcurr2, hidx2⟩ :=
      c3_step ctx hov anc { renderBlock ctx anc { st with currBlocks := [c, b], currBlockIdx := 0 } c with currBlockIdx := 1 } b hb
    have hprev : prevBlock { renderBlock ctx anc { st with currBlocks := [c, b], currBlockIdx := 0 } c with currBlockIdx := 1 } = some c := by
      simp [prevBlock, hcurr1]
    have hp : isPrevBlockOfType { renderBlock ctx anc { st with currBlocks := [c, b], currBlockIdx := 0 } c with currBlockIdx := 1 } BlockNumberedList = false := by
      simp only [isPrevBlockOfType, hprev]
      simp [hc]
    have hN : numberedNo { renderBlock ctx anc { st with currBlocks := [c, b], currBlockIdx := 0 } c with currBlockIdx := 1 } = 1 := by
      rw [numberedNo, hp]
      simp
    rw [hN] at hbuf2
    refine ⟨s1, r2, ?_⟩
    simp only [renderList]
    exact calc (renderBlock ctx anc { renderBlock ctx anc { st with currBlocks := [c, b], currBlockIdx := 0 } c with currBlockIdx := 1 } b).buf
        _ = ({ renderBlock ctx anc { st with currBlocks := [c, b], currBlockIdx := 0 } c with currBlockIdx := 1 }).buf ++ olOpenTag b 1 ++ r2 := hbuf2
        _ = (renderBlock ctx anc { st with currBlocks := [c, b], currBlockIdx := 0 } c).buf ++ olOpenTag b 1 ++ r2 := rfl
        _ = (({ st with currBlocks := [c, b], currBlockIdx := 0 }).buf ++ s1) ++ olOpenTag b 1 ++ r2 := by rw [hbuf1]
        _ = st.buf ++ s1 ++ olOpenTag b 1 ++ r2 := by
              simp [String.append_assoc]

/-- Witness for C3: the plain configuration, a leaf numbered-list block and
a leaf text block; all three conjuncts of the claim are instantiated. -/
theorem c3_numbered_list_ordinals_witness :
    ctx0.renderBlockOverride = none
    ∧ c3num.typ = BlockNumberedList
    ∧ subtreeNoNumbered c3num.content = true
    ∧ c3txt.typ ≠ BlockNumberedList
    ∧ ((∃ rest, (renderBlock ctx0 [] initSt c3num).buf
          = initSt.buf
            ++ olOpenTag c3num (if isPrevBlockOfType initSt BlockNumberedList
                then initSt.listNo + 1 else 1)
            ++ rest)
        ∧ (renderBlock ctx0 [] initSt c3num).listNo
            = (if isPrevBlockOfType initSt BlockNumberedList
                then initSt.listNo + 1 else 1))
    ∧ (∃ r1 r2 r3,
        (renderList ctx0 [] { initSt with currBlocks := [c3num, c3num, c3num] }
            [c3num, c3num, c3num] 0).buf
          = initSt.buf ++ olOpenTag c3num 1 ++ r1 ++ olOpenTag c3num 2 ++ r2
            ++ olOpenTag c3num 3 ++ r3)
    ∧ (∃ r1 r2,
        (renderList ctx0 [] { initSt with currBlocks := [c3txt, c3num] }
            [c3txt, c3num] 0).buf
          = initSt.buf ++ r1 ++ olOpenTag c3num 1 ++ r2) := by
  refine ⟨rfl, rfl, by simp [c3num, blockStub, subtreeNoNumbered],
    by decide, ?_, ?_, ?_⟩
  · exact (c3_numbered_list_ordinals ctx0 rfl).1 [] initSt c3num rfl
      (by simp [c3num, blockStub, subtreeNoNumbered])
  · exact (c3_numbered_list_ordinals ctx0 rfl).2.1 [] initSt c3num c3num c3num
      rfl rfl rfl
      (by simp [c3num, blockStub, subtreeNoNumbered])
      (by simp [c3num, blockStub, subtreeNoNumbered])
      (by simp [c3num, blockStub, subtreeNoNumbered])
  · exact (c3_numbered_list_ordinals ctx0 rfl).2.2 [] initSt c3txt c3num
      (by decide) rfl

end NotionSpec
